import Mathlib

/-!
Verification of the NVD CVE API backend (`main.py`).

The development embeds the two endpoints of the service:

* `get_cve` (detail endpoint): fetches one row by exact `cve_id` and
  normalizes the stored `raw_json` document into a flat detail record,
  with a `try/except` block around each extraction branch
  (CVSS v2 metrics, CVSS v3 metrics, references, CPE products).
  Python exceptions are modelled explicitly with `Except Unit`:
  an operation that would raise (`.get` on a non-dict, iterating a
  non-iterable) returns `.error ()`, and `pyTryE` models the
  statement-level `try/except` that replaces the branch result with its
  default on any exception.

* `list_cves` (listing endpoint): builds a WHERE clause from the optional
  filters (`build_where_clause`), runs a data query with ORDER BY /
  LIMIT / OFFSET and a count query over the same WHERE clause, and
  returns the page plus the total count.  The database table is modelled
  as a list of rows; `EXTRACT(YEAR FROM ...)` is modelled by storing the
  year of a timestamp as a field, and `NOW()` is an explicit parameter.
-/

namespace NVD

/-- JSON values, as stored in the `raw_json` JSONB column.  SQL `NULL`
(delivered to Python as `None`) is modelled by `Json.null`.  Numbers are
rationals (JSON numbers are decimal literals).  Objects are association
lists; JSONB objects have distinct keys, and `.get` is first-match lookup. -/
inductive Json where
  | null : Json
  | bool (b : Bool) : Json
  | num (q : ℚ) : Json
  | str (s : String) : Json
  | arr (elems : List Json) : Json
  | obj (entries : List (String × Json)) : Json

/-- Python dict `.get k`: the value of the first entry whose key is `k`. -/
def lookupJ (k : String) : List (String × Json) → Option Json
  | [] => none
  | (k', v) :: rest => if k' == k then some v else lookupJ k rest

/-- Python truthiness of a JSON value (`if x:`):
`None`, `False`, `0`, `""`, `[]` and `{}` are falsy. -/
def truthy : Json → Bool
  | .null => false
  | .bool b => b
  | .num q => q != 0
  | .str s => s != ""
  | .arr xs => !xs.isEmpty
  | .obj kvs => !kvs.isEmpty

/-- `j.get k` when `j` is known to be a dict, `none` otherwise
(used to state which part of the document a branch depends on). -/
def jget (k : String) : Json → Option Json
  | .obj kvs => lookupJ k kvs
  | _ => none

/-- Exception-aware sequencing: Python statements after a raising
statement do not run. -/
def exBind {α β : Type} (m : Except Unit α) (f : α → Except Unit β) : Except Unit β :=
  match m with
  | .ok a => f a
  | .error e => .error e

/-- `try ... except Exception: ...` around one branch: the handler result
replaces the branch result on any exception. -/
def pyTryE {α : Type} (m : Except Unit α) (handler : Unit → Except Unit α) : Except Unit α :=
  match m with
  | .ok a => .ok a
  | .error e => handler e

/-- Resolve a caught branch to its value, with the handler's default on
exception (the run-time meaning of the source's `try/except` blocks). -/
def tryCatchD {α : Type} (m : Except Unit α) (d : α) : α :=
  match m with
  | .ok a => a
  | .error _ => d

/-- `for x in (v or [])`: a falsy `v` iterates zero times, a list iterates
its elements, and any truthy non-list raises before the first loop body
completes (non-iterables raise `TypeError`; iterating a truthy dict or
string yields strings, whose `.get` in the loop body raises
`AttributeError`). -/
def forList (x : Json) : Except Unit (List Json) :=
  if truthy x then
    match x with
    | .arr xs => .ok xs
    | _ => .error ()
  else .ok []

/-- One database row of the `cves` table.  `EXTRACT(YEAR FROM t)` is
modelled by `t.year`; ordering and `INTERVAL` arithmetic use `t.seconds`. -/
structure Timestamp where
  year : Int
  seconds : Int
deriving DecidableEq, Repr

structure CveRow where
  cve_id : String
  published_date : Timestamp
  last_modified : Timestamp
  base_score_v2 : Option ℚ
  base_score_v3 : Option ℚ
  description : String
  raw_json : Json

/-- The parsed CVSS v2 block of the detail response: the values of the ten
named fields looked up in `cvssData` (`none` is Python `None`). -/
structure CvssV2Rec where
  baseScore : Option Json
  vectorString : Option Json
  accessVector : Option Json
  accessComplexity : Option Json
  authentication : Option Json
  confidentialityImpact : Option Json
  integrityImpact : Option Json
  availabilityImpact : Option Json
  exploitabilityScore : Option Json
  impactScore : Option Json

/-- The parsed CVSS v3 block of the detail response. -/
structure CvssV3Rec where
  baseScore : Option Json
  vectorString : Option Json
  attackVector : Option Json
  attackComplexity : Option Json
  privilegesRequired : Option Json
  userInteraction : Option Json
  scope : Option Json
  confidentialityImpact : Option Json
  integrityImpact : Option Json
  availabilityImpact : Option Json

/-- One entry of the `references` list: `{"url": r.get("url"), "name": r.get("name")}`. -/
structure RefEntry where
  url : Option Json
  name : Option Json

/-- One entry of the `products` list. -/
structure ProductEntry where
  criteria : Json
  matchCriteriaId : Option Json
  vulnerable : Json

/-- `raw = row.get("raw_json") or {}`. -/
def rawOf (raw_json : Json) : Json :=
  if truthy raw_json then raw_json else .obj []

/-- `metrics = raw.get("metrics", {}) if isinstance(raw, dict) else {}`. -/
def metricsOf : Json → Json
  | .obj kvs => (lookupJ "metrics" kvs).getD (.obj [])
  | _ => .obj []

/-- `v2_list = metrics.get("cvssMetricV2") or metrics.get("cvssMetricV2", [])`. -/
def v2ListOf (mkvs : List (String × Json)) : Json :=
  let g := lookupJ "cvssMetricV2" mkvs
  if truthy (g.getD .null) then g.getD .null else g.getD (.arr [])

/-- `v3_list = metrics.get("cvssMetricV3") or []`. -/
def v3ListOf (mkvs : List (String × Json)) : Json :=
  let g := lookupJ "cvssMetricV3" mkvs
  if truthy (g.getD .null) then g.getD .null else .arr []

/-- `v2_list[0].get("cvssData", {})` / `v3_list[0].get("cvssData", {})`. -/
def cvssDataOf (fkvs : List (String × Json)) : Json :=
  (lookupJ "cvssData" fkvs).getD (.obj [])

/-- The ten `v2.get(...)` field extractions. -/
def extractV2Fields (vkvs : List (String × Json)) : CvssV2Rec where
  baseScore := lookupJ "baseScore" vkvs
  vectorString := lookupJ "vectorString" vkvs
  accessVector := lookupJ "accessVector" vkvs
  accessComplexity := lookupJ "accessComplexity" vkvs
  authentication := lookupJ "authentication" vkvs
  confidentialityImpact := lookupJ "confidentialityImpact" vkvs
  integrityImpact := lookupJ "integrityImpact" vkvs
  availabilityImpact := lookupJ "availabilityImpact" vkvs
  exploitabilityScore := lookupJ "exploitabilityScore" vkvs
  impactScore := lookupJ "impactScore" vkvs

/-- The ten `v3.get(...)` field extractions. -/
def extractV3Fields (vkvs : List (String × Json)) : CvssV3Rec where
  baseScore := lookupJ "baseScore" vkvs
  vectorString := lookupJ "vectorString" vkvs
  attackVector := lookupJ "attackVector" vkvs
  attackComplexity := lookupJ "attackComplexity" vkvs
  privilegesRequired := lookupJ "privilegesRequired" vkvs
  userInteraction := lookupJ "userInteraction" vkvs
  scope := lookupJ "scope" vkvs
  confidentialityImpact := lookupJ "confidentialityImpact" vkvs
  integrityImpact := lookupJ "integrityImpact" vkvs
  availabilityImpact := lookupJ "availabilityImpact" vkvs

/-- The `v2.get(...)` block: `v2` must be a dict for `.get` to succeed. -/
def v2FromData : Json → Except Unit (Option CvssV2Rec)
  | .obj vkvs => .ok (some (extractV2Fields vkvs))
  | _ => .error ()

/-- `v2_list[0].get("cvssData", {})`: the first element must be a dict. -/
def v2FromFirst : Json → Except Unit (Option CvssV2Rec)
  | .obj fkvs => v2FromData (cvssDataOf fkvs)
  | _ => .error ()

/-- `if v2_list and isinstance(v2_list, list) and len(v2_list) > 0:` —
anything but a non-empty list leaves `cvss_v2 = {}` (`.ok none`). -/
def cvssV2FromList : Json → Except Unit (Option CvssV2Rec)
  | .arr (f :: _) => v2FromFirst f
  | _ => .ok none

def v3FromData : Json → Except Unit (Option CvssV3Rec)
  | .obj vkvs => .ok (some (extractV3Fields vkvs))
  | _ => .error ()

def v3FromFirst : Json → Except Unit (Option CvssV3Rec)
  | .obj fkvs => v3FromData (cvssDataOf fkvs)
  | _ => .error ()

def cvssV3FromList : Json → Except Unit (Option CvssV3Rec)
  | .arr (f :: _) => v3FromFirst f
  | _ => .ok none

/-- The CVSS v2 branch body (inside its `try`): `metrics.get` raises when
`metrics` is not a dict.  `.ok none` means the branch left `cvss_v2 = {}`. -/
def cvss_v2_E : Json → Except Unit (Option CvssV2Rec)
  | .obj mkvs => cvssV2FromList (v2ListOf mkvs)
  | _ => .error ()

/-- The CVSS v3 branch body (inside its `try`). -/
def cvss_v3_E : Json → Except Unit (Option CvssV3Rec)
  | .obj mkvs => cvssV3FromList (v3ListOf mkvs)
  | _ => .error ()

/-- `references.append({"url": r.get("url"), "name": r.get("name")})`:
`r` must be a dict. -/
def refEntryOf : Json → Except Unit RefEntry
  | .obj rkvs => .ok ⟨lookupJ "url" rkvs, lookupJ "name" rkvs⟩
  | _ => .error ()

/-- The loop over `ref_list`; an exception part-way discards everything
(the `except` handler resets `references = []`). -/
def refsLoop : List Json → Except Unit (List RefEntry)
  | [] => .ok []
  | r :: rest =>
    exBind (refEntryOf r) (fun e => exBind (refsLoop rest) (fun tail => .ok (e :: tail)))

/-- `ref_list = raw.get("references", {}).get("reference_data", [])`. -/
def referenceDataOf (rkvs : List (String × Json)) : Json :=
  (lookupJ "reference_data" rkvs).getD (.arr [])

/-- `.get("reference_data", [])` on the `references` node, then the loop. -/
def refsFromNode : Json → Except Unit (List RefEntry)
  | .obj rkvs => exBind (forList (referenceDataOf rkvs)) refsLoop
  | _ => .error ()

/-- The references branch body (inside its `try`). -/
def references_E : Json → Except Unit (List RefEntry)
  | .obj kvs => refsFromNode ((lookupJ "references" kvs).getD (.obj []))
  | _ => .error ()

/-- `node.get("cpe_match")` (and the same for a child node). -/
def cpeMatchesOf (kvs : List (String × Json)) : Json :=
  (lookupJ "cpe_match" kvs).getD .null

/-- `node.get("children")`. -/
def childrenOf (kvs : List (String × Json)) : Json :=
  (lookupJ "children" kvs).getD .null

/-- The body of the innermost loop: `criteria = match.get("cpe23Uri")`,
`match_id = match.get("matchCriteriaId")`,
`vulnerable = match.get("vulnerable", False)`, appended `if criteria:`. -/
def matchEntryOf (mkvs : List (String × Json)) : Option ProductEntry :=
  let criteria := (lookupJ "cpe23Uri" mkvs).getD .null
  if truthy criteria then
    some ⟨criteria, lookupJ "matchCriteriaId" mkvs, (lookupJ "vulnerable" mkvs).getD (.bool false)⟩
  else none

/-- The loop over a `cpe_match` list: each element's `.get` requires a dict. -/
def matchLoop : List Json → Except Unit (List ProductEntry)
  | [] => .ok []
  | m :: rest =>
    match m with
    | .obj mkvs =>
      exBind (matchLoop rest) (fun tail =>
        .ok (match matchEntryOf mkvs with
             | some e => e :: tail
             | none => tail))
    | _ => .error ()

/-- One child node: its own `cpe_match` loop (children of children are not
visited). -/
def childProducts : Json → Except Unit (List ProductEntry)
  | .obj ckvs => exBind (forList (cpeMatchesOf ckvs)) matchLoop
  | _ => .error ()

def childLoop : List Json → Except Unit (List ProductEntry)
  | [] => .ok []
  | c :: rest =>
    exBind (childProducts c) (fun ps =>
      exBind (childLoop rest) (fun tail => .ok (ps ++ tail)))

/-- One node: its `cpe_match` loop, then its `children` loop. -/
def nodeProducts : Json → Except Unit (List ProductEntry)
  | .obj nkvs =>
    exBind (forList (cpeMatchesOf nkvs)) (fun ms =>
      exBind (matchLoop ms) (fun ps =>
        exBind (forList (childrenOf nkvs)) (fun cs =>
          exBind (childLoop cs) (fun cps => .ok (ps ++ cps)))))
  | _ => .error ()

def nodeLoop : List Json → Except Unit (List ProductEntry)
  | [] => .ok []
  | n :: rest =>
    exBind (nodeProducts n) (fun ps =>
      exBind (nodeLoop rest) (fun tail => .ok (ps ++ tail)))

/-- `.get("nodes", [])` on the `configurations` node. -/
def nodesOf (ckvs : List (String × Json)) : Json :=
  (lookupJ "nodes" ckvs).getD (.arr [])

def configProducts : Json → Except Unit (List ProductEntry)
  | .obj ckvs => exBind (forList (nodesOf ckvs)) nodeLoop
  | _ => .error ()

/-- The products branch body (inside its `try`):
`nodes = raw.get("configurations", {}).get("nodes", []) or []`, then the
node loop. -/
def products_E : Json → Except Unit (List ProductEntry)
  | .obj kvs => configProducts ((lookupJ "configurations" kvs).getD (.obj []))
  | _ => .error ()

/-- The response dict built at the end of `get_cve` (flat columns plus the
four extracted branches). -/
structure Detail where
  cve_id : String
  description : String
  published_date : Timestamp
  last_modified : Timestamp
  base_score_v2 : Option ℚ
  base_score_v3 : Option ℚ
  cvss_v2 : Option CvssV2Rec
  cvss_v3 : Option CvssV3Rec
  references : List RefEntry
  products : List ProductEntry

/-- The normalization of one fetched row, with every branch's `try/except`
resolved (`{}` is `none`, `[]` is `[]`). -/
def detailFun (row : CveRow) : Detail :=
  let rawJ := rawOf row.raw_json
  let metrics := metricsOf rawJ
  { cve_id := row.cve_id
    description := row.description
    published_date := row.published_date
    last_modified := row.last_modified
    base_score_v2 := row.base_score_v2
    base_score_v3 := row.base_score_v3
    cvss_v2 := tryCatchD (cvss_v2_E metrics) none
    cvss_v3 := tryCatchD (cvss_v3_E metrics) none
    references := tryCatchD (references_E rawJ) []
    products := tryCatchD (products_E rawJ) [] }

/-- The normalization part of the `get_cve` endpoint as Python runs it:
each branch may raise internally, each is wrapped in its `try/except`, and
an uncaught exception would propagate to the whole request. -/
def pyGetCveDetail (row : CveRow) : Except Unit Detail :=
  let rawJ := rawOf row.raw_json
  let metrics := metricsOf rawJ
  exBind (pyTryE (cvss_v2_E metrics) (fun _ => .ok none)) (fun cvss_v2 =>
    exBind (pyTryE (cvss_v3_E metrics) (fun _ => .ok none)) (fun cvss_v3 =>
      exBind (pyTryE (references_E rawJ) (fun _ => .ok [])) (fun references =>
        exBind (pyTryE (products_E rawJ) (fun _ => .ok [])) (fun products =>
          .ok { cve_id := row.cve_id
                description := row.description
                published_date := row.published_date
                last_modified := row.last_modified
                base_score_v2 := row.base_score_v2
                base_score_v3 := row.base_score_v3
                cvss_v2 := cvss_v2
                cvss_v3 := cvss_v3
                references := references
                products := products }))))

/-! ### The listing endpoint (`list_cves`) and the filter builder -/

/-- One condition of the WHERE clause, together with its bound parameter
(the source appends the SQL text to `conditions` and the value to
`params` in lockstep). -/
inductive Cond where
  | yearEq (y : Int)
  | minV3 (q : ℚ)
  | minV2 (q : ℚ)
  | lastNDays (n : Int)
  | idLike (s : String)
deriving DecidableEq, Repr

/-- `build_where_clause`: one condition per supplied filter, appended in
source order.  `if year:` and `if last_n_days:` and `if cve_id:` are
Python truthiness tests (`0` and `""` behave like absent);
the score filters test `is not None`.  The initial `"TRUE"` condition is
the empty conjunction. -/
def build_where_clause (year : Option Int) (min_score_v3 min_score_v2 : Option ℚ)
    (last_n_days : Option Int) (cve_id : Option String) : List Cond :=
  (match year with
   | some y => if y = 0 then [] else [Cond.yearEq y]
   | none => [])
  ++ (match min_score_v3 with
      | some q => [Cond.minV3 q]
      | none => [])
  ++ (match min_score_v2 with
      | some q => [Cond.minV2 q]
      | none => [])
  ++ (match last_n_days with
      | some n => if n = 0 then [] else [Cond.lastNDays n]
      | none => [])
  ++ (match cve_id with
      | some s => if s = "" then [] else [Cond.idLike s]
      | none => [])

/-- Python's `str.lower()` (ASCII case folding), written as an executable
character map. -/
def strLower (s : String) : String := String.mk (s.data.map Char.toLower)

/-- Case-insensitive substring containment: the semantics of
`cve_id ILIKE '%sub%'` (for substrings without `%`/`_` wildcards). -/
def ilikeContains (hay sub : String) : Bool :=
  let h := (strLower hay).toList
  let s := (strLower sub).toList
  (List.range (h.length + 1)).any (fun i => (h.drop i).take s.length == s)

/-- Truth of one condition at one row.  A SQL comparison with a `NULL`
score is not satisfied.  `last_modified >= NOW() - INTERVAL 'n days'`
compares seconds. -/
def evalCond (now : Timestamp) (r : CveRow) : Cond → Bool
  | .yearEq y => r.published_date.year == y
  | .minV3 q => match r.base_score_v3 with
    | some s => decide (q ≤ s)
    | none => false
  | .minV2 q => match r.base_score_v2 with
    | some s => decide (q ≤ s)
    | none => false
  | .lastNDays n => decide (now.seconds - n * 86400 ≤ r.last_modified.seconds)
  | .idLike s => ilikeContains r.cve_id s

/-- `WHERE TRUE AND c₁ AND ... AND cₖ`. -/
def matchesWhere (conds : List Cond) (now : Timestamp) (r : CveRow) : Bool :=
  conds.all (evalCond now r)

/-- `if sort_by not in ("published_date", "last_modified"): sort_by = "published_date"`. -/
def resolveSortBy (sort_by : String) : String :=
  if sort_by = "published_date" ∨ sort_by = "last_modified" then sort_by else "published_date"

/-- `if sort_order.lower() not in ("asc", "desc"): sort_order = "desc"`. -/
def resolveSortOrder (sort_order : String) : String :=
  if strLower sort_order = "asc" ∨ strLower sort_order = "desc" then sort_order else "desc"

/-- The ORDER BY key: the `published_date` or `last_modified` column. -/
def sortKey (sort_by : String) (r : CveRow) : Int :=
  if sort_by = "last_modified" then r.last_modified.seconds else r.published_date.seconds

/-- The ORDER BY comparison, ascending for `ASC`, descending for `DESC`
(`sort_order.upper()` in the SQL text). -/
def orderLe (sort_by sort_order : String) (a b : CveRow) : Bool :=
  if strLower sort_order = "asc" then decide (sortKey sort_by a ≤ sortKey sort_by b)
  else decide (sortKey sort_by b ≤ sortKey sort_by a)

def insertSorted (le : CveRow → CveRow → Bool) (x : CveRow) : List CveRow → List CveRow
  | [] => [x]
  | y :: ys => if le x y then x :: y :: ys else y :: insertSorted le x ys

/-- `ORDER BY` as a sort of the matching rows (insertion sort; the claims
under verification do not depend on tie order, which the database does not
guarantee either). -/
def sortRows (le : CveRow → CveRow → Bool) : List CveRow → List CveRow
  | [] => []
  | x :: xs => insertSorted le x (sortRows le xs)

/-- One row of the data query's SELECT list
(`cve_id, EXTRACT(YEAR FROM published_date) AS year, published_date,
last_modified, base_score_v3, base_score_v2, description`). -/
structure CveSummary where
  cve_id : String
  year : Int
  published_date : Timestamp
  last_modified : Timestamp
  base_score_v3 : Option ℚ
  base_score_v2 : Option ℚ
  description : String
deriving DecidableEq, Repr

def toSummary (r : CveRow) : CveSummary :=
  ⟨r.cve_id, r.published_date.year, r.published_date, r.last_modified,
   r.base_score_v3, r.base_score_v2, r.description⟩

/-- The JSON body returned by `/cves/list`. -/
structure ListResult where
  page : Int
  results_per_page : Int
  total_records : Nat
  cves : List CveSummary

/-- The `list_cves` endpoint over a stored table.  The data query and the
count query are both run against the WHERE clause returned by
`build_where_clause`; `offset = (page - 1) * results_per_page`. -/
def list_cves (store : List CveRow) (now : Timestamp)
    (page results_per_page : Int) (sort_by sort_order : String)
    (year : Option Int) (min_score_v3 min_score_v2 : Option ℚ)
    (last_n_days : Option Int) (cve_id : Option String) : ListResult :=
  let sb := resolveSortBy sort_by
  let so := resolveSortOrder sort_order
  let offset := (page - 1) * results_per_page
  let conds := build_where_clause year min_score_v3 min_score_v2 last_n_days cve_id
  let sorted := sortRows (orderLe sb so) (store.filter (fun r => matchesWhere conds now r))
  let data := (sorted.drop offset.toNat).take results_per_page.toNat
  let total := (store.filter (fun r => matchesWhere conds now r)).length
  { page := page
    results_per_page := results_per_page
    total_records := total
    cves := data.map toSummary }

/-! ### The detail endpoint (`get_cve`) -/

/-- An HTTP error response (`HTTPException`, or an uncaught exception
surfaced as a generic 500). -/
structure HttpError where
  status_code : Nat
  detail : String
deriving DecidableEq, Repr

/-- The `get_cve` endpoint: `SELECT ... WHERE cve_id = %s` with
`fetchone()` (the first matching row), a 404 when no row exists, and the
normalization otherwise (an uncaught exception there would be a generic
500; `pyGetCveDetail` never produces one — see `c1_...`). -/
def get_cve (store : List CveRow) (cve_id : String) : Except HttpError Detail :=
  match store.find? (fun r => r.cve_id == cve_id) with
  | none => .error ⟨404, "CVE not found"⟩
  | some row =>
    match pyGetCveDetail row with
    | .ok d => .ok d
    | .error _ => .error ⟨500, "Internal Server Error"⟩

/-! ### Branch normal forms -/

/-- The `metrics` value is a function of `raw.get("metrics")` alone:
a non-dict `raw` and a dict without the key both yield `{}`. -/
theorem metricsOf_eq_jget (rawJ : Json) :
    metricsOf rawJ = (jget "metrics" rawJ).getD (.obj []) := by
  cases rawJ <;> rfl

/-- The references branch is a function of `raw.get("references")` alone:
an absent key and a non-dict `raw` both produce `[]`. -/
theorem references_branch_depends (rawJ : Json) :
    tryCatchD (references_E rawJ) [] =
      match jget "references" rawJ with
      | none => []
      | some v => tryCatchD (refsFromNode v) [] := by
  cases rawJ with
  | obj kvs =>
    cases h : lookupJ "references" kvs <;>
      simp [references_E, jget, h, refsFromNode, referenceDataOf, lookupJ, forList, truthy,
        refsLoop, exBind, tryCatchD]
  | _ => rfl

/-- The products branch is a function of `raw.get("configurations")` alone. -/
theorem products_branch_depends (rawJ : Json) :
    tryCatchD (products_E rawJ) [] =
      match jget "configurations" rawJ with
      | none => []
      | some v => tryCatchD (configProducts v) [] := by
  cases rawJ with
  | obj kvs =>
    cases h : lookupJ "configurations" kvs <;>
      simp [products_E, jget, h, configProducts, nodesOf, lookupJ, forList, truthy,
        nodeLoop, exBind, tryCatchD]
  | _ => rfl

/-- The two scoring branches on an empty `metrics` dict: both stay `{}`. -/
theorem cvss_branches_on_empty_metrics :
    cvss_v2_E (.obj []) = .ok none ∧ cvss_v3_E (.obj []) = .ok none := by
  constructor <;> rfl

/-- The endpoint body never lets an exception escape: every branch is
caught, so the normalization is total. -/
theorem pyGetCveDetail_eq_ok (row : CveRow) : pyGetCveDetail row = .ok (detailFun row) := by
  unfold pyGetCveDetail detailFun
  cases h2 : cvss_v2_E (metricsOf (rawOf row.raw_json)) <;>
    cases h3 : cvss_v3_E (metricsOf (rawOf row.raw_json)) <;>
      cases h4 : references_E (rawOf row.raw_json) <;>
        cases h5 : products_E (rawOf row.raw_json) <;>
          simp [pyTryE, exBind, tryCatchD, h2, h3, h4, h5]

/-- C1: for every stored row and raw document of any shape, the detail
normalization in `get_cve` is total and never throws
(`pyGetCveDetail row = .ok _`); the flat columns are always produced; each
branch (v2 metrics, v3 metrics, references, configurations) is a function
of its own sub-tree of the document only; a branch whose body raises
yields the absent/empty result for that branch only; and a document
missing the `"metrics"` key yields both scoring sub-records absent. -/
theorem c1_normalization_total_and_branch_isolated (row : CveRow) :
    pyGetCveDetail row = .ok (detailFun row)
    ∧ ((detailFun row).cve_id = row.cve_id
       ∧ (detailFun row).description = row.description
       ∧ (detailFun row).published_date = row.published_date
       ∧ (detailFun row).last_modified = row.last_modified
       ∧ (detailFun row).base_score_v2 = row.base_score_v2
       ∧ (detailFun row).base_score_v3 = row.base_score_v3)
    ∧ (∀ j : Json, jget "metrics" (rawOf j) = jget "metrics" (rawOf row.raw_json) →
         (detailFun { row with raw_json := j }).cvss_v2 = (detailFun row).cvss_v2
         ∧ (detailFun { row with raw_json := j }).cvss_v3 = (detailFun row).cvss_v3)
    ∧ (∀ j : Json, jget "references" (rawOf j) = jget "references" (rawOf row.raw_json) →
         (detailFun { row with raw_json := j }).references = (detailFun row).references)
    ∧ (∀ j : Json, jget "configurations" (rawOf j) = jget "configurations" (rawOf row.raw_json) →
         (detailFun { row with raw_json := j }).products = (detailFun row).products)
    ∧ (cvss_v2_E (metricsOf (rawOf row.raw_json)) = .error () → (detailFun row).cvss_v2 = none)
    ∧ (cvss_v3_E (metricsOf (rawOf row.raw_json)) = .error () → (detailFun row).cvss_v3 = none)
    ∧ (references_E (rawOf row.raw_json) = .error () → (detailFun row).references = [])
    ∧ (products_E (rawOf row.raw_json) = .error () → (detailFun row).products = [])
    ∧ (jget "metrics" (rawOf row.raw_json) = none →
         (detailFun row).cvss_v2 = none ∧ (detailFun row).cvss_v3 = none) := by
  refine ⟨pyGetCveDetail_eq_ok row, ⟨rfl, rfl, rfl, rfl, rfl, rfl⟩, ?_, ?_, ?_, ?_, ?_, ?_, ?_, ?_⟩
  · intro j hj
    constructor <;>
      simp [detailFun, metricsOf_eq_jget, hj]
  · intro j hj
    simp only [detailFun]
    rw [references_branch_depends, references_branch_depends, hj]
  · intro j hj
    simp only [detailFun]
    rw [products_branch_depends, products_branch_depends, hj]
  · intro h
    simp [detailFun, h, tryCatchD]
  · intro h
    simp [detailFun, h, tryCatchD]
  · intro h
    simp [detailFun, h, tryCatchD]
  · intro h
    simp [detailFun, h, tryCatchD]
  · intro h
    have hm : metricsOf (rawOf row.raw_json) = .obj [] := by
      rw [metricsOf_eq_jget, h]
      rfl
    constructor <;> simp [detailFun, hm, cvss_branches_on_empty_metrics.1,
      cvss_branches_on_empty_metrics.2, tryCatchD]

/-- A sample stored row whose document is a truthy non-dict (`5`). -/
def sampleRowNum : CveRow :=
  { cve_id := "CVE-2024-0001"
    published_date := ⟨2024, 100⟩
    last_modified := ⟨2024, 200⟩
    base_score_v2 := none
    base_score_v3 := some 9
    description := "sample"
    raw_json := .num 5 }

/-- C1 witness: at a concrete row whose raw document is the number `5`
(so every branch's body raises), the normalization still returns a value,
with both scoring sub-records absent and references empty. -/
theorem c1_normalization_total_and_branch_isolated_witness :
    pyGetCveDetail sampleRowNum = .ok (detailFun sampleRowNum)
    ∧ (detailFun sampleRowNum).cvss_v2 = none
    ∧ (detailFun sampleRowNum).cvss_v3 = none
    ∧ (detailFun sampleRowNum).references = [] := by
  obtain ⟨h1, _, _, _, _, hv2, hv3, hre, _, hm⟩ :=
    c1_normalization_total_and_branch_isolated sampleRowNum
  exact ⟨h1, (hm rfl).1, (hm rfl).2, hre rfl⟩

/-! ### JSON rendering of the scoring sub-records (C10) -/

/-- A Python `None` value serializes as JSON `null`. -/
def renderOptJson : Option Json → Json
  | none => .null
  | some j => j

/-- How the response's `cvss_v2` field serializes: the branch value is
either the empty dict or the ten-field dict built in the source. -/
def renderCvssV2 : Option CvssV2Rec → Json
  | none => .obj []
  | some r => .obj
      [("baseScore", renderOptJson r.baseScore),
       ("vectorString", renderOptJson r.vectorString),
       ("accessVector", renderOptJson r.accessVector),
       ("accessComplexity", renderOptJson r.accessComplexity),
       ("authentication", renderOptJson r.authentication),
       ("confidentialityImpact", renderOptJson r.confidentialityImpact),
       ("integrityImpact", renderOptJson r.integrityImpact),
       ("availabilityImpact", renderOptJson r.availabilityImpact),
       ("exploitabilityScore", renderOptJson r.exploitabilityScore),
       ("impactScore", renderOptJson r.impactScore)]

/-- How the response's `cvss_v3` field serializes. -/
def renderCvssV3 : Option CvssV3Rec → Json
  | none => .obj []
  | some r => .obj
      [("baseScore", renderOptJson r.baseScore),
       ("vectorString", renderOptJson r.vectorString),
       ("attackVector", renderOptJson r.attackVector),
       ("attackComplexity", renderOptJson r.attackComplexity),
       ("privilegesRequired", renderOptJson r.privilegesRequired),
       ("userInteraction", renderOptJson r.userInteraction),
       ("scope", renderOptJson r.scope),
       ("confidentialityImpact", renderOptJson r.confidentialityImpact),
       ("integrityImpact", renderOptJson r.integrityImpact),
       ("availabilityImpact", renderOptJson r.availabilityImpact)]

/-- C10: an absent scoring sub-record is represented as an empty mapping,
never as `null`; and when the scheme's metric list is non-empty but its
first element lacks the `"cvssData"` key, the sub-record is present with
every named field `null` instead of being absent. -/
theorem c10_empty_mapping_vs_all_null_fields (row : CveRow) :
    ((detailFun row).cvss_v2 = none →
       renderCvssV2 (detailFun row).cvss_v2 = .obj []
       ∧ renderCvssV2 (detailFun row).cvss_v2 ≠ .null)
    ∧ ((detailFun row).cvss_v3 = none →
       renderCvssV3 (detailFun row).cvss_v3 = .obj []
       ∧ renderCvssV3 (detailFun row).cvss_v3 ≠ .null)
    ∧ (∀ (mkvs fkvs : List (String × Json)) (rest : List Json),
         metricsOf (rawOf row.raw_json) = .obj mkvs →
         v2ListOf mkvs = .arr (.obj fkvs :: rest) →
         lookupJ "cvssData" fkvs = none →
         (detailFun row).cvss_v2 =
           some ⟨none, none, none, none, none, none, none, none, none, none⟩
         ∧ renderCvssV2 (detailFun row).cvss_v2 =
             .obj [("baseScore", .null), ("vectorString", .null), ("accessVector", .null),
                   ("accessComplexity", .null), ("authentication", .null),
                   ("confidentialityImpact", .null), ("integrityImpact", .null),
                   ("availabilityImpact", .null), ("exploitabilityScore", .null),
                   ("impactScore", .null)])
    ∧ (∀ (mkvs fkvs : List (String × Json)) (rest : List Json),
         metricsOf (rawOf row.raw_json) = .obj mkvs →
         v3ListOf mkvs = .arr (.obj fkvs :: rest) →
         lookupJ "cvssData" fkvs = none →
         (detailFun row).cvss_v3 =
           some ⟨none, none, none, none, none, none, none, none, none, none⟩
         ∧ renderCvssV3 (detailFun row).cvss_v3 =
             .obj [("baseScore", .null), ("vectorString", .null), ("attackVector", .null),
                   ("attackComplexity", .null), ("privilegesRequired", .null),
                   ("userInteraction", .null), ("scope", .null),
                   ("confidentialityImpact", .null), ("integrityImpact", .null),
                   ("availabilityImpact", .null)]) := by
  refine ⟨?_, ?_, ?_, ?_⟩
  · intro h
    rw [h]
    exact ⟨rfl, fun hn => Json.noConfusion hn⟩
  · intro h
    rw [h]
    exact ⟨rfl, fun hn => Json.noConfusion hn⟩
  · intro mkvs fkvs rest hm hv hl
    have hfield : (detailFun row).cvss_v2 =
        some ⟨none, none, none, none, none, none, none, none, none, none⟩ := by
      simp [detailFun, hm, cvss_v2_E, hv, cvssV2FromList, v2FromFirst, v2FromData,
        cvssDataOf, hl, extractV2Fields, tryCatchD, lookupJ]
    rw [hfield]
    exact ⟨rfl, rfl⟩
  · intro mkvs fkvs rest hm hv hl
    have hfield : (detailFun row).cvss_v3 =
        some ⟨none, none, none, none, none, none, none, none, none, none⟩ := by
      simp [detailFun, hm, cvss_v3_E, hv, cvssV3FromList, v3FromFirst, v3FromData,
        cvssDataOf, hl, extractV3Fields, tryCatchD, lookupJ]
    rw [hfield]
    exact ⟨rfl, rfl⟩

/-- A row whose document has a v2 metric list with one element lacking
`"cvssData"`, and no v3 metrics at all. -/
def sampleRowV2NoData : CveRow :=
  { sampleRowNum with
    raw_json := .obj [("metrics", .obj [("cvssMetricV2", .arr [.obj [("other", .num 1)]])])] }

/-- A row with the symmetric v3 document. -/
def sampleRowV3NoData : CveRow :=
  { sampleRowNum with
    raw_json := .obj [("metrics", .obj [("cvssMetricV3", .arr [.obj [("other", .num 1)]])])] }

/-- C10 witness: at the first concrete row the v3 sub-record is the empty
mapping (not `null`) while the v2 sub-record is present with all ten
fields `null`; at the second row, the other way round. -/
theorem c10_empty_mapping_vs_all_null_fields_witness :
    (renderCvssV3 (detailFun sampleRowV2NoData).cvss_v3 = .obj []
     ∧ renderCvssV3 (detailFun sampleRowV2NoData).cvss_v3 ≠ .null)
    ∧ (detailFun sampleRowV2NoData).cvss_v2 =
        some ⟨none, none, none, none, none, none, none, none, none, none⟩
    ∧ (renderCvssV2 (detailFun sampleRowV3NoData).cvss_v2 = .obj []
       ∧ renderCvssV2 (detailFun sampleRowV3NoData).cvss_v2 ≠ .null)
    ∧ (detailFun sampleRowV3NoData).cvss_v3 =
        some ⟨none, none, none, none, none, none, none, none, none, none⟩ := by
  obtain ⟨_, hB2, hB3, _⟩ := c10_empty_mapping_vs_all_null_fields sampleRowV2NoData
  obtain ⟨hA2, _, _, hA4⟩ := c10_empty_mapping_vs_all_null_fields sampleRowV3NoData
  exact ⟨hB2 rfl, (hB3 _ _ _ rfl rfl rfl).1, hA2 rfl, (hA4 _ _ _ rfl rfl rfl).1⟩

/-! ### Listing-side lemmas and claims -/

theorem length_insertSorted (le : CveRow → CveRow → Bool) (x : CveRow) :
    ∀ l : List CveRow, (insertSorted le x l).length = l.length + 1
  | [] => rfl
  | y :: ys => by
    simp only [insertSorted]
    split
    · rfl
    · simp [length_insertSorted le x ys]

theorem length_sortRows (le : CveRow → CveRow → Bool) :
    ∀ l : List CveRow, (sortRows le l).length = l.length
  | [] => rfl
  | x :: xs => by simp [sortRows, length_insertSorted, length_sortRows le xs]

/-- C4: `total_records` is the count of all records matching the filter —
the count query and the page-fetch query are evaluated against the WHERE
clause built once by `build_where_clause` with the same bound parameters,
so the total is the length of the filtered store, not the page size. -/
theorem c4_total_records_counts_matching (store : List CveRow) (now : Timestamp)
    (page rpp : Int) (sb so : String) (y : Option Int) (v3 v2 : Option ℚ)
    (nd : Option Int) (cid : Option String) :
    (list_cves store now page rpp sb so y v3 v2 nd cid).total_records
      = (store.filter (fun r => matchesWhere (build_where_clause y v3 v2 nd cid) now r)).length
    ∧ (list_cves store now page rpp sb so y v3 v2 nd cid).cves
      = (((sortRows (orderLe (resolveSortBy sb) (resolveSortOrder so))
            (store.filter (fun r =>
              matchesWhere (build_where_clause y v3 v2 nd cid) now r))).drop
            ((page - 1) * rpp).toNat).take rpp.toNat).map toSummary :=
  ⟨rfl, rfl⟩

/-- C5: the minimum-score filters are inclusive (`>=`), each scheme's
condition reads only its own column, and when both minimums are supplied
the WHERE clause requires both (a conjunction, never either-or). -/
theorem c5_min_scores_inclusive_independent_conjunctive
    (now : Timestamp) (r : CveRow) (v3min v2min : ℚ)
    (y : Option Int) (nd : Option Int) (cid : Option String) :
    (matchesWhere (build_where_clause y (some v3min) (some v2min) nd cid) now r = true →
       evalCond now r (.minV3 v3min) = true ∧ evalCond now r (.minV2 v2min) = true)
    ∧ (matchesWhere (build_where_clause none (some v3min) (some v2min) none none) now r
        = (evalCond now r (.minV3 v3min) && evalCond now r (.minV2 v2min)))
    ∧ (r.base_score_v3 = some v3min → evalCond now r (.minV3 v3min) = true)
    ∧ (r.base_score_v2 = some v2min → evalCond now r (.minV2 v2min) = true)
    ∧ (∀ r' : CveRow, r'.base_score_v3 = r.base_score_v3 →
         evalCond now r' (.minV3 v3min) = evalCond now r (.minV3 v3min))
    ∧ (∀ r' : CveRow, r'.base_score_v2 = r.base_score_v2 →
         evalCond now r' (.minV2 v2min) = evalCond now r (.minV2 v2min)) := by
  refine ⟨?_, ?_, ?_, ?_, ?_, ?_⟩
  · intro h
    rw [matchesWhere, List.all_eq_true] at h
    exact ⟨h _ (by simp [build_where_clause]), h _ (by simp [build_where_clause])⟩
  · simp [matchesWhere, build_where_clause, Bool.and_assoc]
  · intro h
    simp [evalCond, h]
  · intro h
    simp [evalCond, h]
  · intro r' h
    simp [evalCond, h]
  · intro r' h
    simp [evalCond, h]

/-- A row at the inclusive score boundaries. -/
def sampleRowScores : CveRow :=
  { sampleRowNum with base_score_v3 := some 7, base_score_v2 := some 5 }

/-- C5 witness: a record whose v3 score equals the v3 minimum and whose
v2 score equals the v2 minimum satisfies both conditions, and the built
predicate with both minimums is their conjunction. -/
theorem c5_min_scores_inclusive_independent_conjunctive_witness :
    evalCond ⟨2024, 1000⟩ sampleRowScores (.minV3 7) = true
    ∧ evalCond ⟨2024, 1000⟩ sampleRowScores (.minV2 5) = true
    ∧ matchesWhere (build_where_clause none (some 7) (some 5) none none) ⟨2024, 1000⟩
        sampleRowScores
      = (evalCond ⟨2024, 1000⟩ sampleRowScores (.minV3 7)
         && evalCond ⟨2024, 1000⟩ sampleRowScores (.minV2 5)) := by
  obtain ⟨_, hconj, hv3, hv2, _, _⟩ :=
    c5_min_scores_inclusive_independent_conjunctive ⟨2024, 1000⟩ sampleRowScores 7 5 none none none
  exact ⟨hv3 rfl, hv2 rfl, hconj⟩

/-- C7: an invalid `sort_by` silently falls back to `published_date` and
an invalid `sort_order` (its lowercase form neither `asc` nor `desc`)
falls back to `desc`; the query is then executed with those defaults, and
each fallback is independent of the other parameter. -/
theorem c7_invalid_sort_parameters_fall_back (store : List CveRow) (now : Timestamp)
    (page rpp : Int) (sb so : String) (y : Option Int) (v3 v2 : Option ℚ)
    (nd : Option Int) (cid : Option String)
    (hsb : sb ≠ "published_date" ∧ sb ≠ "last_modified")
    (hso : strLower so ≠ "asc" ∧ strLower so ≠ "desc") :
    list_cves store now page rpp sb so y v3 v2 nd cid
      = list_cves store now page rpp "published_date" "desc" y v3 v2 nd cid
    ∧ (∀ so₂ : String, list_cves store now page rpp sb so₂ y v3 v2 nd cid
        = list_cves store now page rpp "published_date" so₂ y v3 v2 nd cid)
    ∧ (∀ sb₂ : String, list_cves store now page rpp sb₂ so y v3 v2 nd cid
        = list_cves store now page rpp sb₂ "desc" y v3 v2 nd cid) := by
  have h1 : resolveSortBy sb = "published_date" := by
    simp [resolveSortBy, hsb.1, hsb.2]
  have h2 : resolveSortOrder so = "desc" := by
    simp [resolveSortOrder, hso.1, hso.2]
  have hA : resolveSortBy "published_date" = "published_date" := rfl
  have hB : resolveSortOrder "desc" = "desc" := by decide
  refine ⟨?_, fun so₂ => ?_, fun sb₂ => ?_⟩ <;>
    simp only [list_cves, h1, h2, hA, hB]

/-- C7 witness: a concrete listing request with `sort_by = "bogus"` and
`sort_order = "upward"` returns exactly what the defaulted request returns. -/
theorem c7_invalid_sort_parameters_fall_back_witness :
    list_cves [sampleRowNum] ⟨2024, 1000⟩ 1 10 "bogus" "upward" none none none none none
      = list_cves [sampleRowNum] ⟨2024, 1000⟩ 1 10 "published_date" "desc"
          none none none none none :=
  (c7_invalid_sort_parameters_fall_back [sampleRowNum] ⟨2024, 1000⟩ 1 10 "bogus" "upward"
    none none none none none ⟨by decide, by decide⟩ ⟨by decide, by decide⟩).1

/-- C8: the page is fetched at offset `(page − 1) × pageSize` with limit
`pageSize`; a page past the last returns the empty sequence together with
the correct total, and at most `pageSize` records are ever returned. -/
theorem c8_pagination_beyond_last_page_empty (store : List CveRow) (now : Timestamp)
    (page rpp : Int) (sb so : String) (y : Option Int) (v3 v2 : Option ℚ)
    (nd : Option Int) (cid : Option String)
    (hp : 1 ≤ page) (hr1 : 1 ≤ rpp) (hr2 : rpp ≤ 100) :
    (list_cves store now page rpp sb so y v3 v2 nd cid).cves
      = (((sortRows (orderLe (resolveSortBy sb) (resolveSortOrder so))
            (store.filter (fun r =>
              matchesWhere (build_where_clause y v3 v2 nd cid) now r))).drop
            ((page - 1) * rpp).toNat).take rpp.toNat).map toSummary
    ∧ (list_cves store now page rpp sb so y v3 v2 nd cid).total_records
      = (store.filter (fun r => matchesWhere (build_where_clause y v3 v2 nd cid) now r)).length
    ∧ ((store.filter (fun r => matchesWhere (build_where_clause y v3 v2 nd cid) now r)).length
         ≤ ((page - 1) * rpp).toNat →
       (list_cves store now page rpp sb so y v3 v2 nd cid).cves = [])
    ∧ (list_cves store now page rpp sb so y v3 v2 nd cid).cves.length ≤ rpp.toNat := by
  refine ⟨rfl, rfl, ?_, ?_⟩
  · intro h
    have hlen : (sortRows (orderLe (resolveSortBy sb) (resolveSortOrder so))
        (store.filter (fun r =>
          matchesWhere (build_where_clause y v3 v2 nd cid) now r))).length
          ≤ ((page - 1) * rpp).toNat := by
      rw [length_sortRows]
      exact h
    simp [list_cves, List.drop_eq_nil_of_le hlen]
  · simp only [list_cves, List.length_map]
    exact List.length_take_le _ _

/-- C8 witness: page 5 of size 10 over a one-row store is empty while the
total still reports the one matching record. -/
theorem c8_pagination_beyond_last_page_empty_witness :
    (list_cves [sampleRowNum] ⟨2024, 1000⟩ 5 10 "published_date" "desc"
        none none none none none).cves = []
    ∧ (list_cves [sampleRowNum] ⟨2024, 1000⟩ 5 10 "published_date" "desc"
        none none none none none).total_records = 1 := by
  obtain ⟨-, ht, hempty, -⟩ :=
    c8_pagination_beyond_last_page_empty [sampleRowNum] ⟨2024, 1000⟩ 5 10
      "published_date" "desc" none none none none none (by decide) (by decide) (by decide)
  refine ⟨hempty (by decide), by rw [ht]; rfl⟩

/-- C9: with no filters supplied the built WHERE clause is empty and
matches every record; each supplied filter contributes exactly one
condition; and `year = 0`, `last_n_days = 0` or `cve_id = ""` contribute
no condition, exactly as if the filter were absent. -/
theorem c9_absent_and_falsy_filters_contribute_nothing (now : Timestamp) (r : CveRow)
    (y : Option Int) (v3 v2 : Option ℚ) (nd : Option Int) (cid : Option String) :
    matchesWhere (build_where_clause none none none none none) now r = true
    ∧ (build_where_clause y v3 v2 nd cid).length
        = (match y with | some yy => if yy = 0 then 0 else 1 | none => 0)
          + (match v3 with | some _ => 1 | none => 0)
          + (match v2 with | some _ => 1 | none => 0)
          + (match nd with | some n => if n = 0 then 0 else 1 | none => 0)
          + (match cid with | some s => if s = "" then 0 else 1 | none => 0)
    ∧ build_where_clause (some 0) v3 v2 nd cid = build_where_clause none v3 v2 nd cid
    ∧ build_where_clause y v3 v2 (some 0) cid = build_where_clause y v3 v2 none cid
    ∧ build_where_clause y v3 v2 nd (some "") = build_where_clause y v3 v2 nd none := by
  refine ⟨rfl, ?_, ?_, ?_, ?_⟩
  · cases y <;> cases v3 <;> cases v2 <;> cases nd <;> cases cid <;>
      simp only [build_where_clause, List.length_append] <;>
        first
          | rfl
          | (split_ifs <;> rfl)
  · simp [build_where_clause]
  · simp [build_where_clause]
  · simp [build_where_clause]

/-- C6: an identifier for which no record exists yields the dedicated 404
`"CVE not found"` response, never a generic failure, and the lookup is the
exact (case-sensitive) string match `cve_id = %s` on the stored rows. -/
theorem c6_unknown_identifier_not_found (store : List CveRow) (id : String) :
    ((∀ r ∈ store, r.cve_id ≠ id) → get_cve store id = .error ⟨404, "CVE not found"⟩)
    ∧ (∀ row : CveRow, store.find? (fun r => r.cve_id == id) = some row →
         get_cve store id = .ok (detailFun row)) := by
  constructor
  · intro h
    have hf : store.find? (fun r => r.cve_id == id) = none := by
      rw [List.find?_eq_none]
      intro x hx
      simpa using h x hx
    simp [get_cve, hf]
  · intro row hrow
    simp [get_cve, hrow, pyGetCveDetail_eq_ok]

/-- C6 witness: the store holds `"CVE-2024-0001"` and the request asks for
`"cve-2024-0001"` — the match is case-sensitive, so the result is the 404
not-found error. -/
theorem c6_unknown_identifier_not_found_witness :
    get_cve [sampleRowNum] "cve-2024-0001" = .error ⟨404, "CVE not found"⟩ :=
  (c6_unknown_identifier_not_found [sampleRowNum] "cve-2024-0001").1
    (by intro r hr; simp only [List.mem_singleton] at hr; subst hr; decide)

/-! ### Key-order-insensitive equivalence of documents (C2)

Python dicts compare by key set and per-key value (`==` ignores insertion
order), so "permuting the key order of a mapping" is modelled by the
relation `Jeq` below: arrays must agree pointwise, mappings must have the
same key set with related values under `.get`, and every value is related
to itself.  `jeq_obj_of_perm` shows that a permutation of a mapping with
distinct keys (the only kind a JSONB store produces) is `Jeq`-related to
the original, at any nesting depth via the congruence constructors. -/

/-- Lift a relation to `Option` (Python `None` only equals `None`). -/
def ORel {α β : Type} (R : α → β → Prop) : Option α → Option β → Prop
  | some a, some b => R a b
  | none, none => True
  | _, _ => False

theorem orel_refl {α : Type} {R : α → α → Prop} (hR : ∀ a, R a a) :
    ∀ o : Option α, ORel R o o
  | some a => hR a
  | none => trivial

inductive Jeq : Json → Json → Prop where
  | refl (j : Json) : Jeq j j
  | arr {xs ys : List Json} (hlen : xs.length = ys.length)
      (hget : ∀ (i : Nat) (h₁ : i < xs.length) (h₂ : i < ys.length),
        Jeq (xs.get ⟨i, h₁⟩) (ys.get ⟨i, h₂⟩)) :
      Jeq (.arr xs) (.arr ys)
  | obj {kvs₁ kvs₂ : List (String × Json)}
      (hsome : ∀ k : String, (lookupJ k kvs₁).isSome = (lookupJ k kvs₂).isSome)
      (hval : ∀ (k : String) (v₁ v₂ : Json),
        lookupJ k kvs₁ = some v₁ → lookupJ k kvs₂ = some v₂ → Jeq v₁ v₂) :
      Jeq (.obj kvs₁) (.obj kvs₂)

def OJeq : Option Json → Option Json → Prop := ORel Jeq

theorem ojeq_refl : ∀ o : Option Json, OJeq o o :=
  orel_refl Jeq.refl

/-- Relate the results of two exception-aware computations: both raise, or
both succeed with related values. -/
def ERel {α β : Type} (R : α → β → Prop) : Except Unit α → Except Unit β → Prop
  | .ok a, .ok b => R a b
  | .error _, .error _ => True
  | _, _ => False

theorem erel_refl {α : Type} {R : α → α → Prop} (hR : ∀ a, R a a) :
    ∀ e : Except Unit α, ERel R e e
  | .ok a => hR a
  | .error _ => trivial

theorem ERel.bindRel {α α' β β' : Type} {R : α → α' → Prop} {S : β → β' → Prop}
    {e₁ : Except Unit α} {e₂ : Except Unit α'}
    {f : α → Except Unit β} {g : α' → Except Unit β'}
    (he : ERel R e₁ e₂) (hf : ∀ a b, R a b → ERel S (f a) (g b)) :
    ERel S (exBind e₁ f) (exBind e₂ g) := by
  cases e₁ with
  | ok a =>
    cases e₂ with
    | ok b => exact hf a b he
    | error e => exact he.elim
  | error e =>
    cases e₂ with
    | ok b => exact he.elim
    | error e' => exact trivial

theorem tryCatchD_congr {α β : Type} {R : α → β → Prop}
    {e₁ : Except Unit α} {e₂ : Except Unit β} {d₁ : α} {d₂ : β}
    (he : ERel R e₁ e₂) (hd : R d₁ d₂) : R (tryCatchD e₁ d₁) (tryCatchD e₂ d₂) := by
  cases e₁ with
  | ok a =>
    cases e₂ with
    | ok b => exact he
    | error e => exact he.elim
  | error e =>
    cases e₂ with
    | ok b => exact he.elim
    | error e' => exact hd

theorem ojeq_lookup {kvs₁ kvs₂ : List (String × Json)}
    (hsome : ∀ k : String, (lookupJ k kvs₁).isSome = (lookupJ k kvs₂).isSome)
    (hval : ∀ (k : String) (v₁ v₂ : Json),
      lookupJ k kvs₁ = some v₁ → lookupJ k kvs₂ = some v₂ → Jeq v₁ v₂)
    (k : String) : OJeq (lookupJ k kvs₁) (lookupJ k kvs₂) := by
  cases h₁ : lookupJ k kvs₁ with
  | none =>
    cases h₂ : lookupJ k kvs₂ with
    | none => exact trivial
    | some v =>
      have := hsome k
      rw [h₁, h₂] at this
      exact absurd this (by simp)
  | some v₁ =>
    cases h₂ : lookupJ k kvs₂ with
    | none =>
      have := hsome k
      rw [h₁, h₂] at this
      exact absurd this (by simp)
    | some v₂ => exact hval k v₁ v₂ h₁ h₂

theorem jeq_getD {o₁ o₂ : Option Json} {d₁ d₂ : Json}
    (h : OJeq o₁ o₂) (hd : Jeq d₁ d₂) : Jeq (o₁.getD d₁) (o₂.getD d₂) := by
  cases o₁ with
  | none =>
    cases o₂ with
    | none => exact hd
    | some b => exact h.elim
  | some a =>
    cases o₂ with
    | none => exact h.elim
    | some b => exact h

theorem lookupJ_head_isSome (k : String) (v : Json) (t : List (String × Json)) :
    (lookupJ k ((k, v) :: t)).isSome = true := by
  simp [lookupJ]

/-- Two mappings with the same `.get` domain are both empty or both
non-empty. -/
theorem isEmpty_eq_of_hsome {kvs₁ kvs₂ : List (String × Json)}
    (hsome : ∀ k : String, (lookupJ k kvs₁).isSome = (lookupJ k kvs₂).isSome) :
    kvs₁.isEmpty = kvs₂.isEmpty := by
  cases kvs₁ with
  | nil =>
    cases kvs₂ with
    | nil => rfl
    | cons p t =>
      obtain ⟨k, v⟩ := p
      have := hsome k
      rw [lookupJ_head_isSome] at this
      exact absurd this (by simp [lookupJ])
  | cons p t =>
    cases kvs₂ with
    | nil =>
      obtain ⟨k, v⟩ := p
      have := hsome k
      rw [lookupJ_head_isSome] at this
      exact absurd this.symm (by simp [lookupJ])
    | cons q u => rfl

theorem truthy_congr {a b : Json} (h : Jeq a b) : truthy a = truthy b := by
  cases h with
  | refl => rfl
  | arr hlen hget =>
    rename_i xs ys
    cases xs with
    | nil =>
      cases ys with
      | nil => rfl
      | cons y t => exact absurd hlen (by simp)
    | cons x t =>
      cases ys with
      | nil => exact absurd hlen (by simp)
      | cons y u => rfl
  | obj hsome hval =>
    simp [truthy, isEmpty_eq_of_hsome hsome]

/-- `.get` lookup is invariant under permuting a mapping with distinct
keys. -/
theorem lookupJ_perm (k : String) :
    ∀ {kvs₁ kvs₂ : List (String × Json)}, kvs₁.Perm kvs₂ →
      (kvs₁.map Prod.fst).Nodup → lookupJ k kvs₁ = lookupJ k kvs₂ := by
  intro kvs₁ kvs₂ hp
  induction hp with
  | nil => intro _; rfl
  | cons a p ih =>
    intro hnd
    obtain ⟨ka, va⟩ := a
    simp only [List.map_cons, List.nodup_cons] at hnd
    simp only [lookupJ]
    split
    · rfl
    · exact ih hnd.2
  | swap x y l =>
    intro hnd
    obtain ⟨kx, vx⟩ := x
    obtain ⟨ky, vy⟩ := y
    simp only [List.map_cons, List.nodup_cons, List.mem_cons] at hnd
    have hne : ky ≠ kx := fun hk => hnd.1 (Or.inl hk)
    by_cases h1 : ky == k <;> by_cases h2 : kx == k
    · exact absurd ((eq_of_beq h1).trans (eq_of_beq h2).symm) hne
    all_goals simp [lookupJ, h1, h2]
  | trans p₁₂ p₂₃ ih₁ ih₂ =>
    intro hnd
    have hnd₂ := (p₁₂.map Prod.fst).nodup hnd
    exact (ih₁ hnd).trans (ih₂ hnd₂)

/-- Permuting the entries of a mapping with distinct keys yields a
`Jeq`-equivalent document. -/
theorem jeq_obj_of_perm {kvs₁ kvs₂ : List (String × Json)} (hp : kvs₁.Perm kvs₂)
    (hnd : (kvs₁.map Prod.fst).Nodup) : Jeq (.obj kvs₁) (.obj kvs₂) :=
  Jeq.obj (fun k => by rw [lookupJ_perm k hp hnd])
    (fun k v₁ v₂ h₁ h₂ => by
      rw [lookupJ_perm k hp hnd] at h₁
      rw [h₁] at h₂
      cases h₂
      exact Jeq.refl v₁)

/-- Inversion: a document equivalent to a mapping is a mapping with the
same `.get` domain and related values. -/
theorem jeq_obj_inv {kvs₁ : List (String × Json)} {b : Json} (h : Jeq (.obj kvs₁) b) :
    ∃ kvs₂, b = .obj kvs₂
      ∧ (∀ k : String, (lookupJ k kvs₁).isSome = (lookupJ k kvs₂).isSome)
      ∧ (∀ (k : String) (v₁ v₂ : Json),
          lookupJ k kvs₁ = some v₁ → lookupJ k kvs₂ = some v₂ → Jeq v₁ v₂) := by
  cases h with
  | refl =>
    exact ⟨kvs₁, rfl, fun k => rfl, fun k v₁ v₂ h₁ h₂ => by
      rw [h₁] at h₂
      cases h₂
      exact Jeq.refl v₁⟩
  | obj hsome hval => exact ⟨_, rfl, hsome, hval⟩

/-- Inversion: a document equivalent to an array is a pointwise-equivalent
array. -/
theorem jeq_arr_inv {xs : List Json} {b : Json} (h : Jeq (.arr xs) b) :
    ∃ ys, b = .arr ys ∧ List.Forall₂ Jeq xs ys := by
  cases h with
  | refl => exact ⟨xs, rfl, List.forall₂_same.2 fun x _ => Jeq.refl x⟩
  | arr hlen hget => exact ⟨_, rfl, List.forall₂_iff_get.2 ⟨hlen, hget⟩⟩

/-! ### Output equivalence (Python `==` on the response) -/

/-- Python `==` on the `cvss_v2` dict: same ten fields up to `Jeq`. -/
def V2Eq (a b : CvssV2Rec) : Prop :=
  OJeq a.baseScore b.baseScore ∧ OJeq a.vectorString b.vectorString
  ∧ OJeq a.accessVector b.accessVector ∧ OJeq a.accessComplexity b.accessComplexity
  ∧ OJeq a.authentication b.authentication
  ∧ OJeq a.confidentialityImpact b.confidentialityImpact
  ∧ OJeq a.integrityImpact b.integrityImpact
  ∧ OJeq a.availabilityImpact b.availabilityImpact
  ∧ OJeq a.exploitabilityScore b.exploitabilityScore ∧ OJeq a.impactScore b.impactScore

def V3Eq (a b : CvssV3Rec) : Prop :=
  OJeq a.baseScore b.baseScore ∧ OJeq a.vectorString b.vectorString
  ∧ OJeq a.attackVector b.attackVector ∧ OJeq a.attackComplexity b.attackComplexity
  ∧ OJeq a.privilegesRequired b.privilegesRequired
  ∧ OJeq a.userInteraction b.userInteraction ∧ OJeq a.scope b.scope
  ∧ OJeq a.confidentialityImpact b.confidentialityImpact
  ∧ OJeq a.integrityImpact b.integrityImpact
  ∧ OJeq a.availabilityImpact b.availabilityImpact

def RefEq (a b : RefEntry) : Prop :=
  OJeq a.url b.url ∧ OJeq a.name b.name

def ProdEq (a b : ProductEntry) : Prop :=
  Jeq a.criteria b.criteria ∧ OJeq a.matchCriteriaId b.matchCriteriaId
  ∧ Jeq a.vulnerable b.vulnerable

theorem v2eq_refl (r : CvssV2Rec) : V2Eq r r :=
  ⟨ojeq_refl _, ojeq_refl _, ojeq_refl _, ojeq_refl _, ojeq_refl _,
   ojeq_refl _, ojeq_refl _, ojeq_refl _, ojeq_refl _, ojeq_refl _⟩

theorem v3eq_refl (r : CvssV3Rec) : V3Eq r r :=
  ⟨ojeq_refl _, ojeq_refl _, ojeq_refl _, ojeq_refl _, ojeq_refl _,
   ojeq_refl _, ojeq_refl _, ojeq_refl _, ojeq_refl _, ojeq_refl _⟩

theorem refeq_refl (r : RefEntry) : RefEq r r :=
  ⟨ojeq_refl _, ojeq_refl _⟩

theorem prodeq_refl (p : ProductEntry) : ProdEq p p :=
  ⟨Jeq.refl _, ojeq_refl _, Jeq.refl _⟩

theorem forall₂_refl_of {α : Type} {R : α → α → Prop} (hR : ∀ a, R a a) (l : List α) :
    List.Forall₂ R l l :=
  List.forall₂_same.2 fun a _ => hR a

theorem forall₂_append_rel {α β : Type} {R : α → β → Prop} :
    ∀ {l₁ u₁ : List α} {l₂ u₂ : List β}, List.Forall₂ R l₁ l₂ → List.Forall₂ R u₁ u₂ →
      List.Forall₂ R (l₁ ++ u₁) (l₂ ++ u₂) := by
  intro l₁ u₁ l₂ u₂ h hu
  induction h with
  | nil => exact hu
  | cons hh ht ih => exact List.Forall₂.cons hh ih

/-! ### Congruence of every extraction branch under `Jeq` -/

theorem rawOf_congr {a b : Json} (h : Jeq a b) : Jeq (rawOf a) (rawOf b) := by
  unfold rawOf
  rw [truthy_congr h]
  split
  · exact h
  · exact Jeq.refl _

theorem metricsOf_congr {a b : Json} (h : Jeq a b) :
    Jeq (metricsOf a) (metricsOf b) := by
  cases h with
  | refl => exact Jeq.refl _
  | arr hlen hget => exact Jeq.refl _
  | obj hsome hval => exact jeq_getD (ojeq_lookup hsome hval "metrics") (Jeq.refl _)

theorem v2ListOf_congr {kvs₁ kvs₂ : List (String × Json)}
    (hsome : ∀ k : String, (lookupJ k kvs₁).isSome = (lookupJ k kvs₂).isSome)
    (hval : ∀ (k : String) (v₁ v₂ : Json),
      lookupJ k kvs₁ = some v₁ → lookupJ k kvs₂ = some v₂ → Jeq v₁ v₂) :
    Jeq (v2ListOf kvs₁) (v2ListOf kvs₂) := by
  have hg := ojeq_lookup hsome hval "cvssMetricV2"
  have h1 : Jeq ((lookupJ "cvssMetricV2" kvs₁).getD .null)
      ((lookupJ "cvssMetricV2" kvs₂).getD .null) := jeq_getD hg (Jeq.refl _)
  show Jeq
    (if truthy ((lookupJ "cvssMetricV2" kvs₁).getD .null) = true
     then (lookupJ "cvssMetricV2" kvs₁).getD .null
     else (lookupJ "cvssMetricV2" kvs₁).getD (.arr []))
    (if truthy ((lookupJ "cvssMetricV2" kvs₂).getD .null) = true
     then (lookupJ "cvssMetricV2" kvs₂).getD .null
     else (lookupJ "cvssMetricV2" kvs₂).getD (.arr []))
  rw [truthy_congr h1]
  split
  · exact h1
  · exact jeq_getD hg (Jeq.refl _)

theorem v3ListOf_congr {kvs₁ kvs₂ : List (String × Json)}
    (hsome : ∀ k : String, (lookupJ k kvs₁).isSome = (lookupJ k kvs₂).isSome)
    (hval : ∀ (k : String) (v₁ v₂ : Json),
      lookupJ k kvs₁ = some v₁ → lookupJ k kvs₂ = some v₂ → Jeq v₁ v₂) :
    Jeq (v3ListOf kvs₁) (v3ListOf kvs₂) := by
  have hg := ojeq_lookup hsome hval "cvssMetricV3"
  have h1 : Jeq ((lookupJ "cvssMetricV3" kvs₁).getD .null)
      ((lookupJ "cvssMetricV3" kvs₂).getD .null) := jeq_getD hg (Jeq.refl _)
  show Jeq
    (if truthy ((lookupJ "cvssMetricV3" kvs₁).getD .null) = true
     then (lookupJ "cvssMetricV3" kvs₁).getD .null
     else .arr [])
    (if truthy ((lookupJ "cvssMetricV3" kvs₂).getD .null) = true
     then (lookupJ "cvssMetricV3" kvs₂).getD .null
     else .arr [])
  rw [truthy_congr h1]
  split
  · exact h1
  · exact Jeq.refl _

theorem cvssDataOf_congr {fkvs₁ fkvs₂ : List (String × Json)}
    (hsome : ∀ k : String, (lookupJ k fkvs₁).isSome = (lookupJ k fkvs₂).isSome)
    (hval : ∀ (k : String) (v₁ v₂ : Json),
      lookupJ k fkvs₁ = some v₁ → lookupJ k fkvs₂ = some v₂ → Jeq v₁ v₂) :
    Jeq (cvssDataOf fkvs₁) (cvssDataOf fkvs₂) :=
  jeq_getD (ojeq_lookup hsome hval "cvssData") (Jeq.refl _)

theorem extractV2Fields_congr {vkvs₁ vkvs₂ : List (String × Json)}
    (hsome : ∀ k : String, (lookupJ k vkvs₁).isSome = (lookupJ k vkvs₂).isSome)
    (hval : ∀ (k : String) (v₁ v₂ : Json),
      lookupJ k vkvs₁ = some v₁ → lookupJ k vkvs₂ = some v₂ → Jeq v₁ v₂) :
    V2Eq (extractV2Fields vkvs₁) (extractV2Fields vkvs₂) :=
  ⟨ojeq_lookup hsome hval _, ojeq_lookup hsome hval _, ojeq_lookup hsome hval _,
   ojeq_lookup hsome hval _, ojeq_lookup hsome hval _, ojeq_lookup hsome hval _,
   ojeq_lookup hsome hval _, ojeq_lookup hsome hval _, ojeq_lookup hsome hval _,
   ojeq_lookup hsome hval _⟩

theorem extractV3Fields_congr {vkvs₁ vkvs₂ : List (String × Json)}
    (hsome : ∀ k : String, (lookupJ k vkvs₁).isSome = (lookupJ k vkvs₂).isSome)
    (hval : ∀ (k : String) (v₁ v₂ : Json),
      lookupJ k vkvs₁ = some v₁ → lookupJ k vkvs₂ = some v₂ → Jeq v₁ v₂) :
    V3Eq (extractV3Fields vkvs₁) (extractV3Fields vkvs₂) :=
  ⟨ojeq_lookup hsome hval _, ojeq_lookup hsome hval _, ojeq_lookup hsome hval _,
   ojeq_lookup hsome hval _, ojeq_lookup hsome hval _, ojeq_lookup hsome hval _,
   ojeq_lookup hsome hval _, ojeq_lookup hsome hval _, ojeq_lookup hsome hval _,
   ojeq_lookup hsome hval _⟩

theorem v2FromData_congr {d₁ d₂ : Json} (h : Jeq d₁ d₂) :
    ERel (ORel V2Eq) (v2FromData d₁) (v2FromData d₂) := by
  cases h with
  | refl => exact erel_refl (orel_refl v2eq_refl) _
  | arr hlen hget => exact trivial
  | obj hsome hval => exact extractV2Fields_congr hsome hval

theorem v3FromData_congr {d₁ d₂ : Json} (h : Jeq d₁ d₂) :
    ERel (ORel V3Eq) (v3FromData d₁) (v3FromData d₂) := by
  cases h with
  | refl => exact erel_refl (orel_refl v3eq_refl) _
  | arr hlen hget => exact trivial
  | obj hsome hval => exact extractV3Fields_congr hsome hval

theorem v2FromFirst_congr {f₁ f₂ : Json} (h : Jeq f₁ f₂) :
    ERel (ORel V2Eq) (v2FromFirst f₁) (v2FromFirst f₂) := by
  cases h with
  | refl => exact erel_refl (orel_refl v2eq_refl) _
  | arr hlen hget => exact trivial
  | obj hsome hval => exact v2FromData_congr (cvssDataOf_congr hsome hval)

theorem v3FromFirst_congr {f₁ f₂ : Json} (h : Jeq f₁ f₂) :
    ERel (ORel V3Eq) (v3FromFirst f₁) (v3FromFirst f₂) := by
  cases h with
  | refl => exact erel_refl (orel_refl v3eq_refl) _
  | arr hlen hget => exact trivial
  | obj hsome hval => exact v3FromData_congr (cvssDataOf_congr hsome hval)

theorem cvssV2FromList_congr {l₁ l₂ : Json} (h : Jeq l₁ l₂) :
    ERel (ORel V2Eq) (cvssV2FromList l₁) (cvssV2FromList l₂) := by
  cases h with
  | refl => exact erel_refl (orel_refl v2eq_refl) _
  | obj hsome hval => exact trivial
  | arr hlen hget =>
    rename_i xs ys
    cases xs with
    | nil =>
      cases ys with
      | nil => exact trivial
      | cons g t => exact absurd hlen (by simp)
    | cons f t =>
      cases ys with
      | nil => exact absurd hlen (by simp)
      | cons g u => exact v2FromFirst_congr (hget 0 (by simp) (by simp))

theorem cvssV3FromList_congr {l₁ l₂ : Json} (h : Jeq l₁ l₂) :
    ERel (ORel V3Eq) (cvssV3FromList l₁) (cvssV3FromList l₂) := by
  cases h with
  | refl => exact erel_refl (orel_refl v3eq_refl) _
  | obj hsome hval => exact trivial
  | arr hlen hget =>
    rename_i xs ys
    cases xs with
    | nil =>
      cases ys with
      | nil => exact trivial
      | cons g t => exact absurd hlen (by simp)
    | cons f t =>
      cases ys with
      | nil => exact absurd hlen (by simp)
      | cons g u => exact v3FromFirst_congr (hget 0 (by simp) (by simp))

theorem cvss_v2_E_congr {m₁ m₂ : Json} (h : Jeq m₁ m₂) :
    ERel (ORel V2Eq) (cvss_v2_E m₁) (cvss_v2_E m₂) := by
  cases h with
  | refl => exact erel_refl (orel_refl v2eq_refl) _
  | arr hlen hget => exact trivial
  | obj hsome hval => exact cvssV2FromList_congr (v2ListOf_congr hsome hval)

theorem cvss_v3_E_congr {m₁ m₂ : Json} (h : Jeq m₁ m₂) :
    ERel (ORel V3Eq) (cvss_v3_E m₁) (cvss_v3_E m₂) := by
  cases h with
  | refl => exact erel_refl (orel_refl v3eq_refl) _
  | arr hlen hget => exact trivial
  | obj hsome hval => exact cvssV3FromList_congr (v3ListOf_congr hsome hval)

theorem refEntryOf_congr {r₁ r₂ : Json} (h : Jeq r₁ r₂) :
    ERel RefEq (refEntryOf r₁) (refEntryOf r₂) := by
  cases h with
  | refl => exact erel_refl refeq_refl _
  | arr hlen hget => exact trivial
  | obj hsome hval =>
    exact ⟨ojeq_lookup hsome hval "url", ojeq_lookup hsome hval "name"⟩

theorem refsLoop_congr {rs₁ rs₂ : List Json} (h : List.Forall₂ Jeq rs₁ rs₂) :
    ERel (List.Forall₂ RefEq) (refsLoop rs₁) (refsLoop rs₂) := by
  induction h with
  | nil => exact List.Forall₂.nil
  | cons hhead htail ih =>
    exact ERel.bindRel (refEntryOf_congr hhead) (fun e₁ e₂ he =>
      ERel.bindRel ih (fun t₁ t₂ ht => List.Forall₂.cons he ht))

theorem forList_congr {x₁ x₂ : Json} (h : Jeq x₁ x₂) :
    ERel (List.Forall₂ Jeq) (forList x₁) (forList x₂) := by
  unfold forList
  rw [truthy_congr h]
  split
  · cases h with
    | refl => exact erel_refl (forall₂_refl_of Jeq.refl) _
    | arr hlen hget => exact List.forall₂_iff_get.2 ⟨hlen, hget⟩
    | obj hsome hval => exact trivial
  · exact List.Forall₂.nil

theorem refsFromNode_congr {n₁ n₂ : Json} (h : Jeq n₁ n₂) :
    ERel (List.Forall₂ RefEq) (refsFromNode n₁) (refsFromNode n₂) := by
  cases h with
  | refl => exact erel_refl (forall₂_refl_of refeq_refl) _
  | arr hlen hget => exact trivial
  | obj hsome hval =>
    exact ERel.bindRel
      (forList_congr (jeq_getD (ojeq_lookup hsome hval "reference_data") (Jeq.refl _)))
      (fun l₁ l₂ hl => refsLoop_congr hl)

theorem references_E_congr {raw₁ raw₂ : Json} (h : Jeq raw₁ raw₂) :
    ERel (List.Forall₂ RefEq) (references_E raw₁) (references_E raw₂) := by
  cases h with
  | refl => exact erel_refl (forall₂_refl_of refeq_refl) _
  | arr hlen hget => exact trivial
  | obj hsome hval =>
    exact refsFromNode_congr (jeq_getD (ojeq_lookup hsome hval "references") (Jeq.refl _))

theorem matchEntryOf_congr {mkvs₁ mkvs₂ : List (String × Json)}
    (hsome : ∀ k : String, (lookupJ k mkvs₁).isSome = (lookupJ k mkvs₂).isSome)
    (hval : ∀ (k : String) (v₁ v₂ : Json),
      lookupJ k mkvs₁ = some v₁ → lookupJ k mkvs₂ = some v₂ → Jeq v₁ v₂) :
    ORel ProdEq (matchEntryOf mkvs₁) (matchEntryOf mkvs₂) := by
  have hc : Jeq ((lookupJ "cpe23Uri" mkvs₁).getD .null)
      ((lookupJ "cpe23Uri" mkvs₂).getD .null) :=
    jeq_getD (ojeq_lookup hsome hval "cpe23Uri") (Jeq.refl _)
  show ORel ProdEq
    (if truthy ((lookupJ "cpe23Uri" mkvs₁).getD .null) = true
     then some ⟨(lookupJ "cpe23Uri" mkvs₁).getD .null, lookupJ "matchCriteriaId" mkvs₁,
          (lookupJ "vulnerable" mkvs₁).getD (.bool false)⟩
     else none)
    (if truthy ((lookupJ "cpe23Uri" mkvs₂).getD .null) = true
     then some ⟨(lookupJ "cpe23Uri" mkvs₂).getD .null, lookupJ "matchCriteriaId" mkvs₂,
          (lookupJ "vulnerable" mkvs₂).getD (.bool false)⟩
     else none)
  rw [truthy_congr hc]
  split
  · exact ⟨hc, ojeq_lookup hsome hval "matchCriteriaId",
      jeq_getD (ojeq_lookup hsome hval "vulnerable") (Jeq.refl _)⟩
  · exact trivial

theorem matchLoop_congr : ∀ {ms₁ ms₂ : List Json}, List.Forall₂ Jeq ms₁ ms₂ →
    ERel (List.Forall₂ ProdEq) (matchLoop ms₁) (matchLoop ms₂)
  | _, _, List.Forall₂.nil => List.Forall₂.nil
  | m₁ :: t₁, m₂ :: t₂, List.Forall₂.cons hhead htail => by
    cases hhead with
    | refl =>
      cases m₁ with
      | obj mkvs =>
        refine ERel.bindRel (matchLoop_congr htail) (fun u₁ u₂ ht => ?_)
        cases matchEntryOf mkvs with
        | some e => exact List.Forall₂.cons (prodeq_refl e) ht
        | none => exact ht
      | null => exact trivial
      | bool b => exact trivial
      | num q => exact trivial
      | str s => exact trivial
      | arr xs => exact trivial
    | arr hlen hget => exact trivial
    | obj hsome hval =>
      rename_i mkvs₁ mkvs₂
      refine ERel.bindRel (matchLoop_congr htail) (fun u₁ u₂ ht => ?_)
      have hme := matchEntryOf_congr hsome hval
      cases h₁ : matchEntryOf mkvs₁ with
      | some e₁ =>
        cases h₂ : matchEntryOf mkvs₂ with
        | some e₂ =>
          rw [h₁, h₂] at hme
          exact List.Forall₂.cons hme ht
        | none =>
          rw [h₁, h₂] at hme
          exact hme.elim
      | none =>
        cases h₂ : matchEntryOf mkvs₂ with
        | some e₂ =>
          rw [h₁, h₂] at hme
          exact hme.elim
        | none => exact ht

theorem childProducts_congr {c₁ c₂ : Json} (h : Jeq c₁ c₂) :
    ERel (List.Forall₂ ProdEq) (childProducts c₁) (childProducts c₂) := by
  cases h with
  | refl => exact erel_refl (forall₂_refl_of prodeq_refl) _
  | arr hlen hget => exact trivial
  | obj hsome hval =>
    exact ERel.bindRel
      (forList_congr (jeq_getD (ojeq_lookup hsome hval "cpe_match") (Jeq.refl _)))
      (fun ms₁ ms₂ hms => matchLoop_congr hms)

theorem childLoop_congr {cs₁ cs₂ : List Json} (h : List.Forall₂ Jeq cs₁ cs₂) :
    ERel (List.Forall₂ ProdEq) (childLoop cs₁) (childLoop cs₂) := by
  induction h with
  | nil => exact List.Forall₂.nil
  | cons hhead htail ih =>
    exact ERel.bindRel (childProducts_congr hhead) (fun ps₁ ps₂ hps =>
      ERel.bindRel ih (fun t₁ t₂ ht => forall₂_append_rel hps ht))

theorem nodeProducts_congr {n₁ n₂ : Json} (h : Jeq n₁ n₂) :
    ERel (List.Forall₂ ProdEq) (nodeProducts n₁) (nodeProducts n₂) := by
  cases h with
  | refl => exact erel_refl (forall₂_refl_of prodeq_refl) _
  | arr hlen hget => exact trivial
  | obj hsome hval =>
    exact ERel.bindRel
      (forList_congr (jeq_getD (ojeq_lookup hsome hval "cpe_match") (Jeq.refl _)))
      (fun ms₁ ms₂ hms =>
        ERel.bindRel (matchLoop_congr hms) (fun ps₁ ps₂ hps =>
          ERel.bindRel
            (forList_congr (jeq_getD (ojeq_lookup hsome hval "children") (Jeq.refl _)))
            (fun cs₁ cs₂ hcs =>
              ERel.bindRel (childLoop_congr hcs) (fun cps₁ cps₂ hcps =>
                forall₂_append_rel hps hcps))))

theorem nodeLoop_congr {ns₁ ns₂ : List Json} (h : List.Forall₂ Jeq ns₁ ns₂) :
    ERel (List.Forall₂ ProdEq) (nodeLoop ns₁) (nodeLoop ns₂) := by
  induction h with
  | nil => exact List.Forall₂.nil
  | cons hhead htail ih =>
    exact ERel.bindRel (nodeProducts_congr hhead) (fun ps₁ ps₂ hps =>
      ERel.bindRel ih (fun t₁ t₂ ht => forall₂_append_rel hps ht))

theorem configProducts_congr {c₁ c₂ : Json} (h : Jeq c₁ c₂) :
    ERel (List.Forall₂ ProdEq) (configProducts c₁) (configProducts c₂) := by
  cases h with
  | refl => exact erel_refl (forall₂_refl_of prodeq_refl) _
  | arr hlen hget => exact trivial
  | obj hsome hval =>
    exact ERel.bindRel
      (forList_congr (jeq_getD (ojeq_lookup hsome hval "nodes") (Jeq.refl _)))
      (fun ns₁ ns₂ hns => nodeLoop_congr hns)

theorem products_E_congr {raw₁ raw₂ : Json} (h : Jeq raw₁ raw₂) :
    ERel (List.Forall₂ ProdEq) (products_E raw₁) (products_E raw₂) := by
  cases h with
  | refl => exact erel_refl (forall₂_refl_of prodeq_refl) _
  | arr hlen hget => exact trivial
  | obj hsome hval =>
    exact configProducts_congr
      (jeq_getD (ojeq_lookup hsome hval "configurations") (Jeq.refl _))

/-- Python `==` on two detail responses: flat columns equal, both scoring
sub-records equal up to key order, references and products pointwise equal
up to key order. -/
def DetailEq (d₁ d₂ : Detail) : Prop :=
  d₁.cve_id = d₂.cve_id ∧ d₁.description = d₂.description
  ∧ d₁.published_date = d₂.published_date ∧ d₁.last_modified = d₂.last_modified
  ∧ d₁.base_score_v2 = d₂.base_score_v2 ∧ d₁.base_score_v3 = d₂.base_score_v3
  ∧ ORel V2Eq d₁.cvss_v2 d₂.cvss_v2 ∧ ORel V3Eq d₁.cvss_v3 d₂.cvss_v3
  ∧ List.Forall₂ RefEq d₁.references d₂.references
  ∧ List.Forall₂ ProdEq d₁.products d₂.products

/-- C2: the Normalizer is a pure deterministic function of the stored row
and raw document — normalizing the same document twice gives identical
output, and normalizing two documents that differ only in the key order of
their mappings (`Jeq`, which contains every key permutation of mappings
with distinct keys, cf. `jeq_obj_of_perm`) gives outputs equal in the
sense of Python `==`. -/
theorem c2_normalizer_deterministic_and_key_order_stable (row : CveRow) (d₁ d₂ : Json)
    (h : Jeq d₁ d₂) :
    detailFun { row with raw_json := d₁ } = detailFun { row with raw_json := d₁ }
    ∧ DetailEq (detailFun { row with raw_json := d₁ }) (detailFun { row with raw_json := d₂ }) := by
  refine ⟨rfl, ?_⟩
  have hraw : Jeq (rawOf d₁) (rawOf d₂) := rawOf_congr h
  have hm : Jeq (metricsOf (rawOf d₁)) (metricsOf (rawOf d₂)) := metricsOf_congr hraw
  exact ⟨rfl, rfl, rfl, rfl, rfl, rfl,
    tryCatchD_congr (cvss_v2_E_congr hm) trivial,
    tryCatchD_congr (cvss_v3_E_congr hm) trivial,
    tryCatchD_congr (references_E_congr hraw) List.Forall₂.nil,
    tryCatchD_congr (products_E_congr hraw) List.Forall₂.nil⟩

/-- A document with metrics and references, keys in one order... -/
def sampleDocOrdered : Json :=
  .obj [("metrics", .obj [("cvssMetricV3",
           .arr [.obj [("cvssData", .obj [("baseScore", .num 9), ("attackVector", .str "NETWORK")])]])]),
        ("references", .obj [("reference_data", .arr [.obj [("url", .str "http:example")]])])]

/-- ... and the same document with the top-level keys swapped and the
nested `cvssData` keys swapped. -/
def sampleDocShuffled : Json :=
  .obj [("references", .obj [("reference_data", .arr [.obj [("url", .str "http:example")]])]),
        ("metrics", .obj [("cvssMetricV3",
           .arr [.obj [("cvssData", .obj [("attackVector", .str "NETWORK"), ("baseScore", .num 9)])]])])]

/-- Congruence helper: extending two equivalent mappings with the same key
and equivalent values keeps them equivalent. -/
theorem jeq_obj_cons (k : String) {v₁ v₂ : Json} {t₁ t₂ : List (String × Json)}
    (hv : Jeq v₁ v₂) (ht : Jeq (.obj t₁) (.obj t₂)) :
    Jeq (.obj ((k, v₁) :: t₁)) (.obj ((k, v₂) :: t₂)) := by
  obtain ⟨t₂', ht2, hsome, hval⟩ := jeq_obj_inv ht
  cases ht2
  refine Jeq.obj (fun k' => ?_) (fun k' w₁ w₂ h₁ h₂ => ?_)
  · simp only [lookupJ]
    split
    · rfl
    · exact hsome k'
  · simp only [lookupJ] at h₁ h₂
    by_cases hk : (k == k') = true
    · rw [if_pos hk] at h₁ h₂
      cases h₁
      cases h₂
      exact hv
    · rw [if_neg hk] at h₁ h₂
      exact hval k' w₁ w₂ h₁ h₂

/-- Congruence helper: consing equivalent heads onto equivalent arrays. -/
theorem jeq_arr_cons {x y : Json} {xs ys : List Json}
    (h : Jeq x y) (ht : Jeq (.arr xs) (.arr ys)) :
    Jeq (.arr (x :: xs)) (.arr (y :: ys)) := by
  obtain ⟨ys', hy, hf⟩ := jeq_arr_inv ht
  cases hy
  obtain ⟨hlen, hget⟩ := List.forall₂_iff_get.1 (List.Forall₂.cons h hf)
  exact Jeq.arr hlen hget

/-- A two-entry mapping with distinct keys is equivalent to its swap with
pointwise-equivalent values. -/
theorem jeq_obj_two_swapped (k₁ k₂ : String) (hk : k₁ ≠ k₂) {v₁ v₂ w₁ w₂ : Json}
    (h₁ : Jeq v₁ v₂) (h₂ : Jeq w₁ w₂) :
    Jeq (.obj [(k₁, v₁), (k₂, w₁)]) (.obj [(k₂, w₂), (k₁, v₂)]) := by
  refine Jeq.obj (fun k => ?_) (fun k u₁ u₂ hu₁ hu₂ => ?_)
  · cases e₁ : k₁ == k <;> cases e₂ : k₂ == k <;>
      simp [lookupJ, e₁, e₂]
  · cases e₁ : k₁ == k <;> cases e₂ : k₂ == k
    · simp [lookupJ, e₁, e₂] at hu₁
    · simp [lookupJ, e₁, e₂] at hu₁ hu₂
      subst hu₁
      subst hu₂
      exact h₂
    · simp [lookupJ, e₁, e₂] at hu₁ hu₂
      subst hu₁
      subst hu₂
      exact h₁
    · exact absurd ((eq_of_beq e₁).trans (eq_of_beq e₂).symm) hk

/-- The two sample documents are key-order-equivalent: the top-level keys
are swapped and the nested `cvssData` keys are swapped. -/
theorem sampleDocs_jeq : Jeq sampleDocOrdered sampleDocShuffled := by
  have hdata : Jeq (.obj [("baseScore", .num 9), ("attackVector", .str "NETWORK")])
      (.obj [("attackVector", .str "NETWORK"), ("baseScore", .num 9)]) :=
    jeq_obj_of_perm (List.Perm.swap _ _ _) (by decide)
  have hfirst := jeq_obj_cons "cvssData" hdata (Jeq.refl (.obj []))
  have harr := jeq_arr_cons hfirst (Jeq.refl (.arr []))
  have hmetrics := jeq_obj_cons "cvssMetricV3" harr (Jeq.refl (.obj []))
  exact jeq_obj_two_swapped "metrics" "references" (by decide) hmetrics (Jeq.refl _)

/-- C2 witness: the normalizer output on the shuffled concrete document is
`==`-equal to the output on the ordered one. -/
theorem c2_normalizer_deterministic_and_key_order_stable_witness :
    DetailEq (detailFun { sampleRowNum with raw_json := sampleDocOrdered })
      (detailFun { sampleRowNum with raw_json := sampleDocShuffled }) :=
  (c2_normalizer_deterministic_and_key_order_stable sampleRowNum
    sampleDocOrdered sampleDocShuffled sampleDocs_jeq).2

/-! ### The affected-product extraction (C3)

Claim C3 says an entry is emitted for every `cpe_match` element with a
non-absent platform-criteria string.  The code tests `if criteria:` — a
present but empty (or otherwise falsy) criteria value is dropped exactly
like an absent one, so the claim fails on a match whose `cpe23Uri` is
`""`.  The amended statement (truthy criteria, on well-shaped
configuration trees) is proved against a spec-side reference function. -/

/-- The resolved products branch of the normalizer. -/
def productsFun (rawJ : Json) : List ProductEntry :=
  tryCatchD (products_E rawJ) []

/-- Spec reading, step 5: "locate a list under a known key" — the elements
of the value when it is a list, nothing otherwise. -/
def listUnder (k : String) (j : Json) : List Json :=
  match jget k j with
  | some (.arr xs) => xs
  | _ => []

/-- The per-match rule exactly as claim C3 words it: emit for every match
whose platform-criteria value is a present string (even the empty one). -/
def claimMatchProducts (ms : List Json) : List ProductEntry :=
  ms.filterMap (fun m =>
    match m with
    | .obj mkvs =>
      match lookupJ "cpe23Uri" mkvs with
      | some (.str s) =>
        some ⟨.str s, lookupJ "matchCriteriaId" mkvs,
              (lookupJ "vulnerable" mkvs).getD (.bool false)⟩
      | _ => none
    | _ => none)

/-- Claim C3's whole extraction as worded: every node's `cpe_match` list,
then every child's (one level of nesting only), in document order. -/
def claimProducts (rawJ : Json) : List ProductEntry :=
  ((listUnder "nodes" ((jget "configurations" rawJ).getD (.obj []))).map
    (fun node =>
      claimMatchProducts (listUnder "cpe_match" node)
      ++ ((listUnder "children" node).map
            (fun c => claimMatchProducts (listUnder "cpe_match" c))).flatten)).flatten

/-- A `cpe_match` entry whose criteria is the present but empty string. -/
def cexMatch : Json := .obj [("cpe23Uri", .str ""), ("matchCriteriaId", .str "MID-1")]

/-- A document whose single match has a non-absent criteria string (`""`). -/
def cexRaw : Json :=
  .obj [("configurations", .obj [("nodes", .arr [.obj [("cpe_match", .arr [cexMatch])]])])]

/-- C3 counterexample: the document's one `cpe_match` element has a
non-absent platform-criteria string, so the claim as stated demands one
emitted entry — but the code's `if criteria:` drops the empty string and
the extraction emits nothing. -/
theorem c3_scan_nodes_children_emit_criteria_counterexample :
    productsFun cexRaw = []
    ∧ jget "cpe23Uri" cexMatch = some (.str "")
    ∧ claimProducts cexRaw = [⟨.str "", some (.str "MID-1"), .bool false⟩]
    ∧ claimProducts cexRaw ≠ productsFun cexRaw := by
  have h1 : productsFun cexRaw = [] := rfl
  have h3 : claimProducts cexRaw = [⟨.str "", some (.str "MID-1"), .bool false⟩] := rfl
  refine ⟨h1, rfl, h3, ?_⟩
  rw [h1, h3]
  exact fun h => List.noConfusion h

/-- The spec-side per-match rule, amended no further than the
counterexample forces: the criteria value must be truthy (for strings:
non-empty); `matchEntryOf` is exactly that rule — (criteria,
matchCriteriaId, vulnerable defaulting to false) under `if criteria:`. -/
def specMatchProducts (ms : List Json) : List ProductEntry :=
  ms.filterMap (fun m =>
    match m with
    | .obj mkvs => matchEntryOf mkvs
    | _ => none)

/-- Spec step 5 for one node: its own `cpe_match` list, then its
children's `cpe_match` lists — one level of nesting only — in document
order. -/
def specNodeProducts (node : Json) : List ProductEntry :=
  specMatchProducts (listUnder "cpe_match" node)
  ++ ((listUnder "children" node).map
        (fun c => specMatchProducts (listUnder "cpe_match" c))).flatten

/-- Spec step 5, whole document: scan the `configurations` node list. -/
def specProducts (rawJ : Json) : List ProductEntry :=
  ((listUnder "nodes" ((jget "configurations" rawJ).getD (.obj []))).map
    specNodeProducts).flatten

def isObjB : Json → Bool
  | .obj _ => true
  | _ => false

/-- The elements of a JSON value when it is a list. -/
def arrElems : Json → List Json
  | .arr xs => xs
  | _ => []

/-- A value the `for x in (v or [])` idiom iterates without raising and
whose elements all satisfy `p`: falsy, or a list of `p`-elements. -/
def wfIterable (p : Json → Bool) (x : Json) : Bool :=
  !truthy x || (match x with
    | .arr xs => xs.all p
    | _ => false)

/-- A child node the code scans without raising: a mapping whose
`cpe_match` value iterates into mappings. -/
def wfChildElem (c : Json) : Bool :=
  match c with
  | .obj ckvs => wfIterable isObjB (cpeMatchesOf ckvs)
  | _ => false

/-- A node the code scans without raising. -/
def wfNode (n : Json) : Bool :=
  match n with
  | .obj nkvs =>
    wfIterable isObjB (cpeMatchesOf nkvs) && wfIterable wfChildElem (childrenOf nkvs)
  | _ => false

/-- A document whose configurations sub-tree the code scans without
raising anywhere. -/
def wfConfigurations (rawJ : Json) : Bool :=
  match rawJ with
  | .obj kvs =>
    match (lookupJ "configurations" kvs).getD (.obj []) with
    | .obj ckvs => wfIterable wfNode (nodesOf ckvs)
    | _ => false
  | _ => false

theorem forList_wf {p : Json → Bool} {x : Json} (h : wfIterable p x = true) :
    forList x = .ok (arrElems x) ∧ (arrElems x).all p = true := by
  by_cases ht : truthy x = true
  · have harr : ∃ xs, x = .arr xs ∧ xs.all p = true := by
      unfold wfIterable at h
      rw [ht] at h
      simp only [Bool.not_true, Bool.false_or] at h
      cases x with
      | arr xs => exact ⟨xs, rfl, h⟩
      | null => exact absurd h (by simp)
      | bool b => exact absurd h (by simp)
      | num q => exact absurd h (by simp)
      | str s => exact absurd h (by simp)
      | obj kvs => exact absurd h (by simp)
    obtain ⟨xs, rfl, hall⟩ := harr
    exact ⟨by simp [forList, ht, arrElems], by simpa [arrElems] using hall⟩
  · have ht' : truthy x = false := by simpa using ht
    have he : arrElems x = [] := by
      cases x with
      | arr xs =>
        have hx : xs = [] := List.isEmpty_iff.1 (by simpa [truthy] using ht')
        rw [hx]
        rfl
      | null => rfl
      | bool b => rfl
      | num q => rfl
      | str s => rfl
      | obj kvs => rfl
    rw [he]
    exact ⟨by simp [forList, ht'], rfl⟩

/-- `listUnder` agrees with the code's `.get(k, d)`-plus-iteration view
for any default without elements. -/
theorem listUnder_eq_arrElems (k : String) (kvs : List (String × Json)) (d : Json)
    (hd : arrElems d = []) :
    listUnder k (.obj kvs) = arrElems ((lookupJ k kvs).getD d) := by
  have hj : jget k (.obj kvs) = lookupJ k kvs := rfl
  unfold listUnder
  rw [hj]
  cases h : lookupJ k kvs with
  | none => exact hd.symm
  | some v => cases v <;> rfl

theorem matchLoop_eq_spec : ∀ (ms : List Json), ms.all isObjB = true →
    matchLoop ms = .ok (specMatchProducts ms)
  | [], _ => rfl
  | m :: rest, h => by
    simp only [List.all_cons, Bool.and_eq_true] at h
    cases m with
    | obj mkvs =>
      simp only [matchLoop, matchLoop_eq_spec rest h.2, exBind, specMatchProducts,
        List.filterMap_cons]
      cases matchEntryOf mkvs <;> rfl
    | null => exact absurd h.1 (by simp [isObjB])
    | bool b => exact absurd h.1 (by simp [isObjB])
    | num q => exact absurd h.1 (by simp [isObjB])
    | str s => exact absurd h.1 (by simp [isObjB])
    | arr xs => exact absurd h.1 (by simp [isObjB])

theorem childProducts_eq_spec {c : Json} (h : wfChildElem c = true) :
    childProducts c = .ok (specMatchProducts (listUnder "cpe_match" c)) := by
  cases c with
  | obj ckvs =>
    simp only [wfChildElem] at h
    obtain ⟨hfl, hall⟩ := forList_wf h
    simp only [childProducts, hfl, exBind, matchLoop_eq_spec _ hall,
      listUnder_eq_arrElems "cpe_match" ckvs .null rfl]
    rfl
  | null => exact absurd h (by simp [wfChildElem])
  | bool b => exact absurd h (by simp [wfChildElem])
  | num q => exact absurd h (by simp [wfChildElem])
  | str s => exact absurd h (by simp [wfChildElem])
  | arr xs => exact absurd h (by simp [wfChildElem])

theorem childLoop_eq_spec : ∀ {cs : List Json}, cs.all wfChildElem = true →
    childLoop cs
      = .ok ((cs.map (fun c => specMatchProducts (listUnder "cpe_match" c))).flatten)
  | [], _ => rfl
  | c :: rest, h => by
    simp only [List.all_cons, Bool.and_eq_true] at h
    simp only [childLoop, childProducts_eq_spec h.1, childLoop_eq_spec h.2, exBind,
      List.map_cons, List.flatten_cons]

theorem nodeProducts_eq_spec {n : Json} (h : wfNode n = true) :
    nodeProducts n = .ok (specNodeProducts n) := by
  cases n with
  | obj nkvs =>
    simp only [wfNode, Bool.and_eq_true] at h
    obtain ⟨hm, hc⟩ := h
    obtain ⟨hmfl, hmall⟩ := forList_wf hm
    obtain ⟨hcfl, hcall⟩ := forList_wf hc
    simp only [nodeProducts, hmfl, hcfl, exBind, matchLoop_eq_spec _ hmall,
      childLoop_eq_spec hcall, specNodeProducts,
      listUnder_eq_arrElems "cpe_match" nkvs .null rfl,
      listUnder_eq_arrElems "children" nkvs .null rfl]
    rfl
  | null => exact absurd h (by simp [wfNode])
  | bool b => exact absurd h (by simp [wfNode])
  | num q => exact absurd h (by simp [wfNode])
  | str s => exact absurd h (by simp [wfNode])
  | arr xs => exact absurd h (by simp [wfNode])

theorem nodeLoop_eq_spec : ∀ {ns : List Json}, ns.all wfNode = true →
    nodeLoop ns = .ok ((ns.map specNodeProducts).flatten)
  | [], _ => rfl
  | n :: rest, h => by
    simp only [List.all_cons, Bool.and_eq_true] at h
    simp only [nodeLoop, nodeProducts_eq_spec h.1, nodeLoop_eq_spec h.2, exBind,
      List.map_cons, List.flatten_cons]

/-- C3, amended: on a well-shaped configurations sub-tree the extraction
scans each node of the node list and each node's `children` (one level of
nesting only) and emits, in document order, one entry per `cpe_match`
element with a truthy (present, non-empty) criteria value — `criteria`,
`matchCriteriaId`, and the vulnerable flag defaulting to false — dropping
matches with absent or falsy criteria silently; the result equals the
spec-side reference extraction. -/
theorem c3_scan_nodes_children_emit_truthy_criteria (row : CveRow)
    (h : wfConfigurations (rawOf row.raw_json) = true) :
    (detailFun row).products = specProducts (rawOf row.raw_json) := by
  have hmain : productsFun (rawOf row.raw_json) = specProducts (rawOf row.raw_json) := by
    cases hr : rawOf row.raw_json with
    | obj kvs =>
      rw [hr] at h
      simp only [wfConfigurations] at h
      cases hc : (lookupJ "configurations" kvs).getD (.obj []) with
      | obj ckvs =>
        rw [hc] at h
        obtain ⟨hfl, hall⟩ := forList_wf h
        simp only [productsFun, products_E, configProducts, hc, hfl, exBind,
          nodeLoop_eq_spec hall, tryCatchD, specProducts, jget]
        rw [listUnder_eq_arrElems "nodes" ckvs (.arr []) rfl]
        have : jget "nodes" (.obj ckvs) = lookupJ "nodes" ckvs := rfl
        simp [listUnder, jget, hc, nodesOf]
      | null => rw [hc] at h; exact absurd h (by simp [wfConfigurations])
      | bool b => rw [hc] at h; exact absurd h (by simp)
      | num q => rw [hc] at h; exact absurd h (by simp)
      | str s => rw [hc] at h; exact absurd h (by simp)
      | arr xs => rw [hc] at h; exact absurd h (by simp)
    | null => rw [hr] at h; exact absurd h (by simp [wfConfigurations])
    | bool b => rw [hr] at h; exact absurd h (by simp [wfConfigurations])
    | num q => rw [hr] at h; exact absurd h (by simp [wfConfigurations])
    | str s => rw [hr] at h; exact absurd h (by simp [wfConfigurations])
    | arr xs => rw [hr] at h; exact absurd h (by simp [wfConfigurations])
  exact hmain

/-- A well-shaped configurations tree: one node with two matches (one
missing its criteria) and one child with its own match. -/
def wfRawDoc : Json :=
  .obj [("configurations", .obj [("nodes", .arr
    [.obj [("cpe_match", .arr
        [.obj [("cpe23Uri", .str "cpe:2.3:a:x"), ("vulnerable", .bool true)],
         .obj [("matchCriteriaId", .str "M2")]]),
      ("children", .arr
        [.obj [("cpe_match", .arr [.obj [("cpe23Uri", .str "cpe:2.3:a:y")]])]])]])])]

def wfRow : CveRow := { sampleRowNum with raw_json := wfRawDoc }

/-- C3 witness: on the concrete well-shaped document the code's products
equal the spec-side extraction — the node's truthy-criteria match first
(vulnerable flag taken from the document), the criteria-less match
dropped, then the child's match with the vulnerable flag defaulting to
false. -/
theorem c3_scan_nodes_children_emit_truthy_criteria_witness :
    (detailFun wfRow).products = specProducts (rawOf wfRow.raw_json)
    ∧ specProducts (rawOf wfRow.raw_json)
        = [⟨.str "cpe:2.3:a:x", none, .bool true⟩,
           ⟨.str "cpe:2.3:a:y", none, .bool false⟩] :=
  ⟨c3_scan_nodes_children_emit_truthy_criteria wfRow rfl, rfl⟩

end NVD
